import Mathlib

/-!
Verification development for the DeviceProvisioning repository.

The provisioning script (APIProvision.py) is embedded as a trace-producing
computation over an abstract remote-catalog environment: every HTTP call the
script issues is recorded as a `Call` event, every diagnostic print that the
claims mention is recorded as a `Diag` event, and the control flow (early
process exits, uncaught exceptions) is captured by `StepResult`.

The mirror script (extract_and_save_assets.py) is embedded as pure functions
over a relational-sink model `MirrorDB`, with the SQL upserts modelled by
find-or-append operations and the per-connection commit/rollback discipline
modelled explicitly.

Latitude/longitude values are carried opaquely by the scripts (no arithmetic
is performed on them), so they are represented by `Rat`.
-/

namespace DP

/-- Substring containment on character lists, mirroring the Python `in`
operator on strings. -/
def charsContains (needle : List Char) : List Char → Bool
  | [] => needle.isEmpty
  | c :: t => needle.isPrefixOf (c :: t) || charsContains needle t

/-- `strContains hay needle` mirrors Python `needle in hay`. -/
def strContains (hay needle : String) : Bool :=
  charsContains needle.data hay.data

/-- Character-wise lowercasing, mirroring Python str.lower on the ASCII names
these scripts handle. -/
def strLower (s : String) : String :=
  ⟨s.data.map Char.toLower⟩

/-- Character-wise uppercasing, mirroring Python str.upper. -/
def strUpper (s : String) : String :=
  ⟨s.data.map Char.toUpper⟩

/-- A catalog asset as returned by the tenant asset listing: the fields the
scripts read are `name`, `type` and the nested id. -/
structure Asset where
  name : String
  type : String
  id : String
deriving DecidableEq, Repr

/-- A profile entry as returned by the asset/device profile listings. -/
structure Profile where
  name : String
  id : String
deriving DecidableEq, Repr

/-- The configuration values APIProvision.py loads from config.properties. -/
structure Config where
  country_name : String
  state_name : String
  serial_number : String
  latitude : Rat
  longitude : Rat
  country_profile_name : String
  state_profile_name : String
  device_profile_name : String
  device_profile_id : String
deriving DecidableEq, Repr

/-- A successful IP-geolocation fix: get_laptop_location_and_address returns
coordinates together with an uppercased country and state name (which the
module-level code then discards). -/
structure GeoFix where
  latitude : Rat
  longitude : Rat
  country_name : String
  state_name : String
deriving DecidableEq, Repr

/-- The module-level runtime values derived from configuration and the
geolocation outcome (APIProvision.py lines 85-98): names always come from the
configuration, coordinates from the fix when one is available. -/
structure Runtime where
  COUNTRY_NAME : String
  STATE_NAME : String
  LAT : Rat
  LON : Rat
deriving DecidableEq, Repr

/-- Lines 85-98: `LAT, LON, _, _ = get_laptop_location_and_address()` discards
the detected country/state names; COUNTRY_NAME and STATE_NAME are always the
configured values; coordinates fall back to the configured ones when detection
failed. -/
def resolveRuntime (cfg : Config) (geo : Option GeoFix) : Runtime :=
  { COUNTRY_NAME := cfg.country_name
    STATE_NAME := cfg.state_name
    LAT := match geo with
      | some g => g.latitude
      | none => cfg.latitude
    LON := match geo with
      | some g => g.longitude
      | none => cfg.longitude }

/-- The telemetry payload of send_telemetry. -/
structure Telemetry where
  serialNumber : String
  country : String
  state : String
  latitude : Rat
  longitude : Rat
  temperature : Rat
deriving DecidableEq, Repr

/-- One HTTP call issued by the provisioning script against the remote
catalog (or the telemetry endpoint). -/
inductive Call where
  | whoami
  | listAssets
  | searchAssetProfiles (textSearch : String)
  | searchDeviceProfiles (textSearch : String)
  | listAssetProfiles
  | listDeviceProfiles
  | createAsset (name profile_id type_name : String)
  | setServerAttributes (entity_type entity_id : String) (latitude longitude : Rat)
  | checkRelation (fromId fromType toId toType : String)
  | createRelation (fromId fromType toId toType : String)
  | createDevice (name device_profile_id : String)
  | getCredentials (device_id : String)
  | postTelemetry (device_token : String) (payload : Telemetry)
deriving DecidableEq, Repr

/-- Diagnostic prints the claims talk about: the searched profile name and
the dump of available profiles of each kind. -/
inductive Diag where
  | profileNotFound (searched : String)
  | availableAssetProfiles (names : List String)
  | availableDeviceProfiles (names : List String)
deriving DecidableEq, Repr

/-- How a step of the script terminates: normally, via sys.exit, or with an
uncaught exception. -/
inductive StepResult (α : Type) where
  | ok (a : α)
  | exit (code : Nat)
  | crash
deriving DecidableEq, Repr

/-- Result of running a fragment of the script: the calls it issued, the
diagnostics it printed, and how it finished. -/
structure StepOut (α : Type) where
  calls : List Call
  diags : List Diag
  res : StepResult α

/-- Sequential composition of script fragments: once a fragment exits or
crashes, nothing further runs, but its calls stay on the trace. -/
def StepOut.andThen {α β : Type} (x : StepOut α) (f : α → StepOut β) : StepOut β :=
  match x.res with
  | .ok a => ⟨x.calls ++ (f a).calls, x.diags ++ (f a).diags, (f a).res⟩
  | .exit c => ⟨x.calls, x.diags, .exit c⟩
  | .crash => ⟨x.calls, x.diags, .crash⟩

/-- A `try ... except: print(...); exit(code)` wrapper around a fragment. -/
def StepOut.catchExit {α : Type} (x : StepOut α) (code : Nat) : StepOut α :=
  match x.res with
  | .crash => ⟨x.calls, x.diags, .exit code⟩
  | r => ⟨x.calls, x.diags, r⟩

def pureStep {α : Type} (a : α) : StepOut α := ⟨[], [], .ok a⟩

def exitStep {α : Type} (n : Nat) : StepOut α := ⟨[], [], .exit n⟩

def diagStep (d : Diag) : StepOut Unit := ⟨[], [d], .ok ()⟩

/-- The behaviour of the remote catalog (and the other external collaborators)
during one run: the response each call would receive.  `none` responses model
a raised exception / HTTP error where the source distinguishes one. -/
structure Env where
  whoamiStatus : Option Nat
  listAssetsResp : Option (List Asset)
  assetProfilesResp : String → Option (List Profile)
  deviceProfilesResp : String → Option (List Profile)
  allAssetProfilesResp : Option (List Profile)
  allDeviceProfilesResp : Option (List Profile)
  hostnameResp : Option String
  timestamp : String
  createAssetResp : Option Asset
  setAttrsOk : Bool
  relationProbeResp : String → String → Option Nat
  childRelOk : Bool
  createDeviceResp : Option Asset
  deviceRelOk : Bool
  credentialsResp : Option String
  telemetryOk : Bool
  temperature : Rat

/-- generate_device_name (lines 107-117): the system hostname when available,
otherwise a papaya-prefixed fallback built from names and a timestamp. -/
def generate_device_name (env : Env) (country state : String) : String :=
  match env.hostnameResp with
  | some h => h
  | none => "papaya_" ++ country ++ "_" ++ state ++ "_" ++ env.timestamp

/-- validate_token (lines 121-141): returns True exactly on HTTP 200; 401,
403, other statuses and exceptions all yield False. -/
def validate_token (env : Env) : StepOut Bool :=
  ⟨[Call.whoami], [], .ok (env.whoamiStatus == some 200)⟩

/-- list_all_assets (lines 254-278): lists the tenant assets; any error is
caught and an empty list returned. -/
def list_all_assets (env : Env) : StepOut (List Asset) :=
  ⟨[Call.listAssets], [], .ok (env.listAssetsResp.getD [])⟩

/-- The scan get_asset_profile_id_by_name / get_device_profile_id_by_name
perform on a returned listing: first profile whose name equals the searched
name exactly (case-sensitively), projected to its id. -/
def profileIdFromListing (profiles : List Profile) (profile_name : String) : Option String :=
  (profiles.find? (fun p => p.name == profile_name)).map Profile.id

/-- get_asset_profile_id_by_name (lines 326-343): a search call followed by an
exact name scan; an HTTP error propagates (crash). -/
def get_asset_profile_id_by_name (env : Env) (profile_name : String) : StepOut (Option String) :=
  ⟨[Call.searchAssetProfiles profile_name], [],
    match env.assetProfilesResp profile_name with
    | none => .crash
    | some profiles => .ok (profileIdFromListing profiles profile_name)⟩

/-- get_device_profile_id_by_name (lines 345-362). -/
def get_device_profile_id_by_name (env : Env) (profile_name : String) : StepOut (Option String) :=
  ⟨[Call.searchDeviceProfiles profile_name], [],
    match env.deviceProfilesResp profile_name with
    | none => .crash
    | some profiles => .ok (profileIdFromListing profiles profile_name)⟩

/-- get_all_profiles (lines 364-391): prints every available asset profile
name and every available device profile name; errors are caught. -/
def get_all_profiles (env : Env) : StepOut Unit :=
  ⟨[Call.listAssetProfiles, Call.listDeviceProfiles],
    (match env.allAssetProfilesResp with
      | some ps => [Diag.availableAssetProfiles (ps.map Profile.name)]
      | none => []) ++
    (match env.allDeviceProfilesResp with
      | some ps => [Diag.availableDeviceProfiles (ps.map Profile.name)]
      | none => []),
    .ok ()⟩

/-- create_asset (lines 143-170): posts the asset payload; a 403 or any other
HTTP error is re-raised to the caller. -/
def create_asset (env : Env) (name profile_id type_name : String) : StepOut Asset :=
  ⟨[Call.createAsset name profile_id type_name], [],
    match env.createAssetResp with
    | some a => .ok a
    | none => .crash⟩

/-- send_asset_attributes (lines 172-180): posts latitude/longitude to
SERVER_SCOPE; raises on HTTP error. -/
def send_asset_attributes (env : Env) (entity_type entity_id : String)
    (latitude longitude : Rat) : StepOut Unit :=
  ⟨[Call.setServerAttributes entity_type entity_id latitude longitude], [],
    if env.setAttrsOk then .ok () else .crash⟩

/-- create_device (lines 182-198): always posts a fresh device payload. -/
def create_device (env : Env) (name device_profile_id : String) : StepOut Asset :=
  ⟨[Call.createDevice name device_profile_id], [],
    match env.createDeviceResp with
    | some d => .ok d
    | none => .crash⟩

/-- assign_child_asset (lines 200-215): unconditionally posts an asset-to-asset
Contains relation. -/
def assign_child_asset (env : Env) (parent_id child_id : String) : StepOut Unit :=
  ⟨[Call.createRelation parent_id "ASSET" child_id "ASSET"], [],
    if env.childRelOk then .ok () else .crash⟩

/-- assign_device_to_asset (lines 217-232): posts an asset-to-device Contains
relation, from the asset to the device. -/
def assign_device_to_asset (env : Env) (device_id asset_id : String) : StepOut Unit :=
  ⟨[Call.createRelation asset_id "ASSET" device_id "DEVICE"], [],
    if env.deviceRelOk then .ok () else .crash⟩

/-- check_relation_exists (lines 313-324): probes the relation-info endpoint;
existence means exactly HTTP 200. -/
def check_relation_exists (env : Env) (parent_id child_id : String)
    (parent_type child_type : String) : StepOut Bool :=
  ⟨[Call.checkRelation parent_id parent_type child_id child_type], [],
    match env.relationProbeResp parent_id child_id with
    | none => .crash
    | some s => .ok (s == 200)⟩

/-- get_device_credentials (lines 234-238). -/
def get_device_credentials (env : Env) (device_id : String) : StepOut String :=
  ⟨[Call.getCredentials device_id], [],
    match env.credentialsResp with
    | some t => .ok t
    | none => .crash⟩

/-- send_telemetry (lines 240-252): posts serial number, the configured
country and state names, the resolved coordinates and a random temperature,
authenticated by the device token. -/
def send_telemetry (env : Env) (cfg : Config) (rt : Runtime) (device_token : String) :
    StepOut Unit :=
  ⟨[Call.postTelemetry device_token
      ⟨cfg.serial_number, rt.COUNTRY_NAME, rt.STATE_NAME, rt.LAT, rt.LON, env.temperature⟩],
    [],
    if env.telemetryOk then .ok () else .crash⟩

/-- The case-insensitive name scan of Steps 1 and 2 (lines 444-448, 466-470):
first asset whose uppercased name equals the uppercased target, regardless of
its type. -/
def findAssetByNameCI (assets : List Asset) (name : String) : Option Asset :=
  assets.find? (fun a => strUpper a.name == strUpper name)

/-- Step 2 (lines 461-495): reuse the state asset when a name match exists;
otherwise try to create it with the state profile and attach coordinates,
exiting with status 1 when that raises. -/
def locateOrCreateState (env : Env) (cfg : Config) (rt : Runtime)
    (state_profile_id : String) (all_assets : List Asset) : StepOut Asset :=
  match findAssetByNameCI all_assets rt.STATE_NAME with
  | some state_asset => pureStep state_asset
  | none =>
    (StepOut.andThen (create_asset env rt.STATE_NAME state_profile_id cfg.state_profile_name)
      fun state_asset =>
        StepOut.andThen (send_asset_attributes env "ASSET" state_asset.id rt.LAT rt.LON)
          fun _ => pureStep state_asset).catchExit 1

/-- Step 3 (lines 497-504): probe the country-to-state relation and create it
only when the probe reports it absent. -/
def ensureStateLinked (env : Env) (country_id state_id : String) : StepOut Unit :=
  StepOut.andThen (check_relation_exists env country_id state_id "ASSET" "ASSET")
    fun linked =>
      if linked then pureStep () else assign_child_asset env country_id state_id

/-- The not-found handling of Step 0.5 (lines 416-432): print the searched
name, dump all available profiles, exit 1. -/
def profileMissing (env : Env) (profile_name : String) : StepOut Unit :=
  StepOut.andThen (diagStep (Diag.profileNotFound profile_name)) fun _ =>
    StepOut.andThen (get_all_profiles env) fun _ => exitStep 1

/-- Steps 4 to 6 (lines 506-523): unconditional device creation, unconditional
device-to-state relation, credential fetch, telemetry. -/
def deviceAndTelemetry (env : Env) (cfg : Config) (rt : Runtime) (state_asset : Asset)
    (device_pid : String) : StepOut Unit :=
  StepOut.andThen
    (create_device env (generate_device_name env rt.COUNTRY_NAME rt.STATE_NAME) device_pid)
    fun device =>
  StepOut.andThen (assign_device_to_asset env device.id state_asset.id) fun _ =>
  StepOut.andThen (get_device_credentials env device.id) fun device_token =>
  send_telemetry env cfg rt device_token

/-- Steps 2 to 6 (lines 461-523), after the country asset was located. -/
def provisionFromCountry (env : Env) (cfg : Config) (rt : Runtime)
    (state_pid device_pid : String) (all_assets : List Asset) (country_asset : Asset) :
    StepOut Unit :=
  StepOut.andThen (locateOrCreateState env cfg rt state_pid all_assets) fun state_asset =>
  StepOut.andThen (ensureStateLinked env country_asset.id state_asset.id) fun _ =>
  deviceAndTelemetry env cfg rt state_asset device_pid

/-- Steps 1 to 6 (lines 438-523): relist the assets, locate the country by
case-insensitive name (exit 1 when absent), then provision. -/
def provisionSteps (env : Env) (cfg : Config) (rt : Runtime)
    (state_pid device_pid : String) : StepOut Unit :=
  StepOut.andThen (list_all_assets env) fun all_assets =>
  match findAssetByNameCI all_assets rt.COUNTRY_NAME with
  | none => exitStep 1
  | some country_asset =>
    provisionFromCountry env cfg rt state_pid device_pid all_assets country_asset

/-- The not-found checks of Step 0.5 (lines 416-436), ordered country first,
then state, then device, followed by Steps 1-6 when all three resolved. -/
def profileDispatch (env : Env) (cfg : Config) (rt : Runtime)
    (ids : Option String × Option String × Option String) : StepOut Unit :=
  match ids with
  | (none, _, _) => profileMissing env cfg.country_profile_name
  | (some _, none, _) => profileMissing env cfg.state_profile_name
  | (some _, some _, none) => profileMissing env cfg.device_profile_name
  | (some _, some state_pid, some device_pid) =>
    provisionSteps env cfg rt state_pid device_pid

/-- Step 0 (lines 395-403): the token gate; exit 1 unless validation passed,
otherwise continue with the rest of the script. -/
def authGate (env : Env) (rest : StepOut Unit) : StepOut Unit :=
  StepOut.andThen (validate_token env) fun valid =>
  if valid then rest else exitStep 1

/-- Steps 0.1 and 0.5 (lines 407-414): the debug listing and the three
profile-id lookups, handing the three results to the rest of the script. -/
def resolvePhase (env : Env) (cfg : Config)
    (rest : Option String × Option String × Option String → StepOut Unit) : StepOut Unit :=
  StepOut.andThen (list_all_assets env) fun _ =>
  StepOut.andThen (get_asset_profile_id_by_name env cfg.country_profile_name)
    fun country_profile_id =>
  StepOut.andThen (get_asset_profile_id_by_name env cfg.state_profile_name)
    fun state_profile_id =>
  StepOut.andThen (get_device_profile_id_by_name env cfg.device_profile_name)
    fun device_profile_id =>
  rest (country_profile_id, state_profile_id, device_profile_id)

/-- The module-level execution of APIProvision.py (lines 395-523), with the
runtime values (names and coordinates) already resolved. -/
def runCore (cfg : Config) (rt : Runtime) (env : Env) : StepOut Unit :=
  authGate env (resolvePhase env cfg (fun ids => profileDispatch env cfg rt ids))

/-- One full provisioning run: resolve the runtime values from configuration
and the geolocation outcome, then execute the script. -/
def run (cfg : Config) (geo : Option GeoFix) (env : Env) : StepOut Unit :=
  runCore cfg (resolveRuntime cfg geo) env

/-! ### Call predicates used by the claims -/

def Call.isCreateAsset : Call → Bool
  | .createAsset .. => true
  | _ => false

def Call.isCreateDevice : Call → Bool
  | .createDevice .. => true
  | _ => false

def Call.isCreateRelation : Call → Bool
  | .createRelation .. => true
  | _ => false

/-- A relation-create between two assets (the country-to-state edge). -/
def Call.isAssetAssetRelationCreate : Call → Bool
  | .createRelation _ ft _ tt => ft == "ASSET" && tt == "ASSET"
  | _ => false

/-- A relation-create whose target is a device (the state-to-device edge). -/
def Call.isDeviceRelationCreate : Call → Bool
  | .createRelation _ _ _ tt => tt == "DEVICE"
  | _ => false

def Call.isCheckRelation : Call → Bool
  | .checkRelation .. => true
  | _ => false

/-- The target entity type of a relation-existence probe (empty for other
calls). -/
def Call.checkToType : Call → String
  | .checkRelation _ _ _ tt => tt
  | _ => ""

/-- The asset name of a create-asset call (empty for other calls). -/
def Call.createAssetName : Call → String
  | .createAsset n _ _ => n
  | _ => ""

/-- The calls the Scenario property of the specification enumerates:
entity/relation/device creations, attribute writes, the credential fetch and
the telemetry POST (listings and probes are not among them). -/
def Call.isProvisioningEffect : Call → Bool
  | .createAsset .. => true
  | .setServerAttributes .. => true
  | .createRelation .. => true
  | .createDevice .. => true
  | .getCredentials .. => true
  | .postTelemetry .. => true
  | _ => false

/-! ### A minimal catalog-state semantics for device creation

The remote catalog assigns a fresh opaque id to every created device; nothing
in the provisioning script ever deletes one.  Replaying the call trace against
this state shows how many device entities a run leaves behind. -/

structure Catalog where
  devices : List (Nat × String)
  nextDeviceId : Nat
deriving DecidableEq, Repr

def applyCall (cat : Catalog) : Call → Catalog
  | .createDevice name _ =>
    ⟨cat.devices ++ [(cat.nextDeviceId, name)], cat.nextDeviceId + 1⟩
  | _ => cat

def applyTrace (cat : Catalog) (tr : List Call) : Catalog :=
  tr.foldl applyCall cat

/-! ### The mirror script: categorization (extract_and_save_assets.py) -/

inductive AssetCategory where
  | country
  | state
  | other
deriving DecidableEq, Repr

/-- The classification chain of categorize_assets (lines 201-236) for a single
asset, given the already-lowercased configured profile names: exact type
match first, then keyword containment in the type, then the name-based
heuristic, with everything else treated as a device. -/
def classify_asset (country_profile_name state_profile_name device_profile_name : String)
    (a : Asset) : AssetCategory :=
  let asset_type := strLower a.type
  let asset_name := a.name
  if asset_type == country_profile_name then .country
  else if asset_type == state_profile_name then .state
  else if asset_type == device_profile_name then .other
  else if ["country", "nation", "territory"].any (fun ct => strContains asset_type ct) then
    .country
  else if ["state", "province", "region", "territory", "district"].any
      (fun st => strContains asset_type st) then
    .state
  else if decide (asset_name.length ≤ 3)
      || ["COUNTRY", "NATION"].any (fun k => strContains (strUpper asset_name) k) then
    .country
  else if ["STATE", "PROVINCE", "REGION"].any (fun k => strContains (strUpper asset_name) k) then
    .state
  else .other

/-- categorize_assets (lines 185-239): lowercase the configured profile names,
then dispatch every asset into the countries, states or other-devices bucket
in input order. -/
def categorize_assets (assets : List Asset)
    (country_profile_name state_profile_name device_profile_name : String) :
    List Asset × List Asset × List Asset :=
  let cp := strLower country_profile_name
  let sp := strLower state_profile_name
  let dp := strLower device_profile_name
  assets.foldl
    (fun acc a =>
      match classify_asset cp sp dp a with
      | .country => (acc.1 ++ [a], acc.2.1, acc.2.2)
      | .state => (acc.1, acc.2.1 ++ [a], acc.2.2)
      | .other => (acc.1, acc.2.1, acc.2.2 ++ [a]))
    ([], [], [])

/-! ### The mirror script: relational sink and persistence

The three tables of the persisted schema.  Primary keys are drawn from a
single sequence counter `next_id`; the SQL upserts (INSERT ... ON CONFLICT
... DO UPDATE ... RETURNING id) are modelled by find-or-append operations
that return the existing id on a natural-key conflict. -/

structure CountryRow where
  country_id : Nat
  country_name : String
deriving DecidableEq, Repr

structure StateRow where
  state_id : Nat
  state_name : String
  country_id : Nat
deriving DecidableEq, Repr

structure DeviceRow where
  device_id : Nat
  device_name : String
  serial_number : String
  firmware_version : String
  location_lat : Rat
  location_lon : Rat
  state_id : Nat
  country_id : Nat
deriving DecidableEq, Repr

structure MirrorDB where
  country_asset : List CountryRow
  state_asset : List StateRow
  devices : List DeviceRow
  next_id : Nat
deriving DecidableEq, Repr

/-- INSERT INTO country_asset ... ON CONFLICT (country_name) DO UPDATE ...
RETURNING country_id. -/
def upsertCountry (db : MirrorDB) (name : String) : MirrorDB × Nat :=
  match db.country_asset.find? (fun r => r.country_name == name) with
  | some r => (db, r.country_id)
  | none =>
    ({ db with
        country_asset := db.country_asset ++ [⟨db.next_id, name⟩]
        next_id := db.next_id + 1 },
      db.next_id)

/-- INSERT INTO state_asset ... ON CONFLICT (country_id, state_name) DO UPDATE
... RETURNING state_id. -/
def upsertState (db : MirrorDB) (name : String) (country_id : Nat) : MirrorDB × Nat :=
  match db.state_asset.find? (fun r => r.state_name == name && r.country_id == country_id) with
  | some r => (db, r.state_id)
  | none =>
    ({ db with
        state_asset := db.state_asset ++ [⟨db.next_id, name, country_id⟩]
        next_id := db.next_id + 1 },
      db.next_id)

/-- INSERT INTO devices ... ON CONFLICT (serial_number) DO UPDATE SET
device_name, firmware_version, location_lat, location_lon RETURNING
device_id: on a serial conflict only those four columns are rewritten, the
stored state_id and country_id keep their old values. -/
def upsertDevice (db : MirrorDB) (device_name serial_number firmware_version : String)
    (location_lat location_lon : Rat) (state_id country_id : Nat) : MirrorDB × Nat :=
  match db.devices.find? (fun r => r.serial_number == serial_number) with
  | some r =>
    ({ db with
        devices := db.devices.map fun q =>
          if q.serial_number == serial_number then
            { q with
                device_name := device_name
                firmware_version := firmware_version
                location_lat := location_lat
                location_lon := location_lon }
          else q },
      r.device_id)
  | none =>
    ({ db with
        devices := db.devices ++
          [⟨db.next_id, device_name, serial_number, firmware_version,
            location_lat, location_lon, state_id, country_id⟩]
        next_id := db.next_id + 1 },
      db.next_id)

/-- The mapping entries save_countries_to_db builds per ThingsBoard id. -/
structure CountryMapEntry where
  db_id : Nat
  name : String
deriving DecidableEq, Repr

/-- The mapping entries save_states_to_db builds per ThingsBoard id. -/
structure StateMapEntry where
  db_id : Nat
  name : String
  country_id : Nat
deriving DecidableEq, Repr

/-- Insertion-ordered dictionary lookup (Python dict membership). -/
def lookupKey {α : Type} (m : List (String × α)) (k : String) : Option α :=
  (m.find? (fun e => e.1 == k)).map (fun e => e.2)

/-- A platform device as returned by the tenant device listing; `label` is
used as the serial number when present and non-empty. -/
structure TbDevice where
  name : String
  id : String
  label : Option String
deriving DecidableEq, Repr

/-- The best-effort per-entity attribute fetches of the mirror: coordinates
for assets, coordinates plus firmware version for devices. -/
structure MirrorEnv where
  assetAttrs : String → Option Rat × Option Rat
  deviceAttrs : String → Option Rat × Option Rat × String

/-- The row loop of save_countries_to_db (lines 251-271): upsert each country
by name on the open connection, recording the returned id in the mapping; a
raising row aborts the loop with the failure flag set.  `fails i` says whether
the i-th row raises. -/
def saveCountriesLoop (fails : Nat → Bool) (i : Nat) (draft : MirrorDB)
    (mapping : List (String × CountryMapEntry)) :
    List Asset → MirrorDB × List (String × CountryMapEntry) × Bool
  | [] => (draft, mapping, true)
  | c :: rest =>
    if fails i then (draft, mapping, false)
    else
      let p := upsertCountry draft c.name
      saveCountriesLoop fails (i + 1) p.1 (mapping ++ [(c.id, ⟨p.2, c.name⟩)]) rest

/-- save_countries_to_db (lines 241-282): one connection for the whole batch,
committed only after every row succeeded, rolled back entirely when any row
raises; the (possibly partial) mapping is returned either way. -/
def save_countries_to_db (db : MirrorDB) (countries : List Asset) (fails : Nat → Bool) :
    MirrorDB × List (String × CountryMapEntry) :=
  let r := saveCountriesLoop fails 0 db [] countries
  (if r.2.2 then r.1 else db, r.2.1)

/-- The row loop of save_states_to_db (lines 361-416): resolve each state
country via the inferred relations, falling back to the first mapped country
or to a created DEFAULT_COUNTRY row, then upsert the state. -/
def saveStatesLoop (country_mapping : List (String × CountryMapEntry))
    (relations : List (String × String)) (fails : Nat → Bool) (i : Nat)
    (draft : MirrorDB) (mapping : List (String × StateMapEntry)) :
    List Asset → MirrorDB × List (String × StateMapEntry) × Bool
  | [] => (draft, mapping, true)
  | s :: rest =>
    if fails i then (draft, mapping, false)
    else
      let fromRel : Option Nat :=
        match lookupKey relations s.id with
        | some country_tb_id => (lookupKey country_mapping country_tb_id).map CountryMapEntry.db_id
        | none => none
      let p : MirrorDB × Nat :=
        match fromRel with
        | some cid => (draft, cid)
        | none =>
          match country_mapping with
          | e :: _ => (draft, e.2.db_id)
          | [] => upsertCountry draft "DEFAULT_COUNTRY"
      let q := upsertState p.1 s.name p.2
      saveStatesLoop country_mapping relations fails (i + 1) q.1
        (mapping ++ [(s.id, ⟨q.2, s.name, p.2⟩)]) rest

/-- save_states_to_db (lines 351-427): same per-batch commit/rollback
discipline as the country save. -/
def save_states_to_db (db : MirrorDB) (states : List Asset)
    (country_mapping : List (String × CountryMapEntry))
    (relations : List (String × String)) (fails : Nat → Bool) :
    MirrorDB × List (String × StateMapEntry) :=
  let r := saveStatesLoop country_mapping relations fails 0 db [] states
  (if r.2.2 then r.1 else db, r.2.1)

/-- The record of one executed device INSERT: the values bound into the
statement, in particular the state and country ids the row was assigned. -/
structure DeviceInsertOp where
  device_name : String
  serial_number : String
  state_id : Nat
  country_id : Nat
deriving DecidableEq, Repr

/-- The state/country assignment shared by both device saves (lines 523-558
and 621-656): the first entry of the state mapping when it is non-empty,
otherwise the first mapped country together with an upserted DEFAULT_STATE
row, otherwise freshly upserted DEFAULT_COUNTRY and DEFAULT_STATE rows. -/
def assignStateCountry (draft : MirrorDB)
    (state_mapping : List (String × StateMapEntry))
    (country_mapping : List (String × CountryMapEntry)) : MirrorDB × Nat × Nat :=
  match state_mapping with
  | e :: _ => (draft, e.2.db_id, e.2.country_id)
  | [] =>
    match country_mapping with
    | c :: _ =>
      let p := upsertState draft "DEFAULT_STATE" c.2.db_id
      (p.1, p.2, c.2.db_id)
    | [] =>
      let p := upsertCountry draft "DEFAULT_COUNTRY"
      let q := upsertState p.1 "DEFAULT_STATE" p.2
      (q.1, q.2, p.2)

/-- The serial number synthesized for an asset persisted as a device
(line 513). -/
def assetSerial (a : Asset) : String :=
  "ASSET_" ++ a.id.take 8

/-- The coordinate defaulting of both device saves: 0.0/0.0 when either
coordinate is missing. -/
def coordsOrZero : Option Rat × Option Rat → Rat × Rat
  | (some la, some lo) => (la, lo)
  | _ => (0, 0)

/-- The row loop of save_asset_devices_to_db (lines 508-576): synthesize a
serial, fetch best-effort coordinates, assign the fallback state/country ids
and upsert the device row, recording the executed insert. -/
def saveAssetDevicesLoop (menv : MirrorEnv)
    (state_mapping : List (String × StateMapEntry))
    (country_mapping : List (String × CountryMapEntry)) (fails : Nat → Bool) (i : Nat)
    (draft : MirrorDB) (ops : List DeviceInsertOp) :
    List Asset → MirrorDB × List DeviceInsertOp × Bool
  | [] => (draft, ops, true)
  | dev :: rest =>
    if fails i then (draft, ops, false)
    else
      let serial_number := assetSerial dev
      let firmware_version := "1.0.0"
      let co := coordsOrZero (menv.assetAttrs dev.id)
      let a := assignStateCountry draft state_mapping country_mapping
      let q := upsertDevice a.1 dev.name serial_number firmware_version co.1 co.2 a.2.1 a.2.2
      saveAssetDevicesLoop menv state_mapping country_mapping fails (i + 1) q.1
        (ops ++ [⟨dev.name, serial_number, a.2.1, a.2.2⟩]) rest

/-- save_asset_devices_to_db (lines 491-585): per-batch commit/rollback as the
other saves; returns the executed inserts for inspection. -/
def save_asset_devices_to_db (db : MirrorDB) (devices : List Asset)
    (state_mapping : List (String × StateMapEntry))
    (country_mapping : List (String × CountryMapEntry))
    (menv : MirrorEnv) (fails : Nat → Bool) : MirrorDB × List DeviceInsertOp :=
  let r := saveAssetDevicesLoop menv state_mapping country_mapping fails 0 db [] devices
  (if r.2.2 then r.1 else db, r.2.1)

/-- The serial number used for a platform device (lines 610-612): the label
when present and non-empty, otherwise DEV_ plus an id prefix. -/
def tbSerial (d : TbDevice) : String :=
  let fallback := "DEV_" ++ d.id.take 8
  match d.label with
  | some l => if l == "" then fallback else l
  | none => fallback

/-- The row loop of save_thingsboard_devices_to_db (lines 604-674). -/
def saveTbDevicesLoop (menv : MirrorEnv)
    (state_mapping : List (String × StateMapEntry))
    (country_mapping : List (String × CountryMapEntry)) (fails : Nat → Bool) (i : Nat)
    (draft : MirrorDB) (ops : List DeviceInsertOp) :
    List TbDevice → MirrorDB × List DeviceInsertOp × Bool
  | [] => (draft, ops, true)
  | dev :: rest =>
    if fails i then (draft, ops, false)
    else
      let serial_number := tbSerial dev
      let at3 := menv.deviceAttrs dev.id
      let firmware_version := at3.2.2
      let co := coordsOrZero (at3.1, at3.2.1)
      let a := assignStateCountry draft state_mapping country_mapping
      let q := upsertDevice a.1 dev.name serial_number firmware_version co.1 co.2 a.2.1 a.2.2
      saveTbDevicesLoop menv state_mapping country_mapping fails (i + 1) q.1
        (ops ++ [⟨dev.name, serial_number, a.2.1, a.2.2⟩]) rest

/-- save_thingsboard_devices_to_db (lines 587-683). -/
def save_thingsboard_devices_to_db (db : MirrorDB) (tb_devices : List TbDevice)
    (state_mapping : List (String × StateMapEntry))
    (country_mapping : List (String × CountryMapEntry))
    (menv : MirrorEnv) (fails : Nat → Bool) : MirrorDB × List DeviceInsertOp :=
  let r := saveTbDevicesLoop menv state_mapping country_mapping fails 0 db [] tb_devices
  (if r.2.2 then r.1 else db, r.2.1)

/-- The persist phase of main (lines 750-755): the four batches run in
sequence, each on its own connection, later batches receiving the mappings
the earlier ones returned. -/
def persistPhase (db : MirrorDB) (countries states asset_devices : List Asset)
    (tb_devices : List TbDevice) (relations : List (String × String)) (menv : MirrorEnv)
    (cF sF adF tdF : Nat → Bool) : MirrorDB :=
  let r1 := save_countries_to_db db countries cF
  let r2 := save_states_to_db r1.1 states r1.2 relations sF
  let r3 := save_asset_devices_to_db r2.1 asset_devices r2.2 r1.2 menv adF
  (save_thingsboard_devices_to_db r3.1 tb_devices r2.2 r1.2 menv tdF).1

/-! ## Composition lemmas for script fragments -/

lemma StepOut.andThen_of_ok {α β : Type} {x : StepOut α} {f : α → StepOut β} {a : α}
    (h : x.res = .ok a) :
    x.andThen f = ⟨x.calls ++ (f a).calls, x.diags ++ (f a).diags, (f a).res⟩ := by
  unfold StepOut.andThen
  rw [h]

lemma StepOut.andThen_of_exit {α β : Type} {x : StepOut α} {f : α → StepOut β} {c : Nat}
    (h : x.res = .exit c) :
    x.andThen f = ⟨x.calls, x.diags, .exit c⟩ := by
  unfold StepOut.andThen
  rw [h]

lemma StepOut.andThen_of_crash {α β : Type} {x : StepOut α} {f : α → StepOut β}
    (h : x.res = .crash) :
    x.andThen f = ⟨x.calls, x.diags, .crash⟩ := by
  unfold StepOut.andThen
  rw [h]

lemma StepOut.res_of_andThen_ok {α β : Type} {x : StepOut α} {f : α → StepOut β} {b : β}
    (h : (x.andThen f).res = .ok b) : ∃ a, x.res = .ok a ∧ (f a).res = .ok b := by
  unfold StepOut.andThen at h
  cases hx : x.res with
  | ok a => exact ⟨a, rfl, by rw [hx] at h; exact h⟩
  | exit c => rw [hx] at h; exact absurd h (by simp)
  | crash => rw [hx] at h; exact absurd h (by simp)

/-- Every call on the trace of a fragment satisfies a predicate. -/
def AllCalls {α : Type} (x : StepOut α) (p : Call → Prop) : Prop :=
  ∀ c ∈ x.calls, p c

lemma AllCalls.andThen {α β : Type} {x : StepOut α} {f : α → StepOut β} {p : Call → Prop}
    (hx : AllCalls x p) (hf : ∀ a, AllCalls (f a) p) : AllCalls (x.andThen f) p := by
  intro c hc
  unfold StepOut.andThen at hc
  cases hr : x.res with
  | ok a =>
    rw [hr] at hc
    simp only [List.mem_append] at hc
    rcases hc with hc | hc
    · exact hx c hc
    · exact hf a c hc
  | exit n => rw [hr] at hc; exact hx c hc
  | crash => rw [hr] at hc; exact hx c hc

lemma AllCalls.catchExit {α : Type} {x : StepOut α} {p : Call → Prop} {n : Nat}
    (hx : AllCalls x p) : AllCalls (x.catchExit n) p := by
  intro c hc
  unfold StepOut.catchExit at hc
  cases hr : x.res <;> rw [hr] at hc <;> exact hx c hc

lemma AllCalls.of_calls_eq {α : Type} {x : StepOut α} {p : Call → Prop} {l : List Call}
    (h : x.calls = l) (hl : ∀ c ∈ l, p c) : AllCalls x p := by
  intro c hc
  exact hl c (h ▸ hc)

lemma AllCalls.of_pure {α : Type} (a : α) (p : Call → Prop) : AllCalls (pureStep a) p := by
  intro c hc
  simp [pureStep] at hc

lemma AllCalls.of_exit {α : Type} (n : Nat) (p : Call → Prop) :
    AllCalls (exitStep (α := α) n) p := by
  intro c hc
  simp [exitStep] at hc

lemma AllCalls.of_diag (d : Diag) (p : Call → Prop) : AllCalls (diagStep d) p := by
  intro c hc
  simp [diagStep] at hc

lemma AllCalls.of_single {α : Type} {x : StepOut α} {p : Call → Prop} {c0 : Call}
    (h : x.calls = [c0]) (hp : p c0) : AllCalls x p := by
  intro c hc
  rw [h] at hc
  simp only [List.mem_singleton] at hc
  exact hc ▸ hp

lemma AllCalls.of_validate_token {env : Env} {p : Call → Prop} (h : p .whoami) :
    AllCalls (validate_token env) p :=
  AllCalls.of_single rfl h

lemma AllCalls.of_list_all_assets {env : Env} {p : Call → Prop} (h : p .listAssets) :
    AllCalls (list_all_assets env) p :=
  AllCalls.of_single rfl h

lemma AllCalls.of_gap {env : Env} {p : Call → Prop} {n : String}
    (h : p (.searchAssetProfiles n)) : AllCalls (get_asset_profile_id_by_name env n) p :=
  AllCalls.of_single rfl h

lemma AllCalls.of_gdp {env : Env} {p : Call → Prop} {n : String}
    (h : p (.searchDeviceProfiles n)) : AllCalls (get_device_profile_id_by_name env n) p :=
  AllCalls.of_single rfl h

lemma AllCalls.of_get_all_profiles {env : Env} {p : Call → Prop}
    (h1 : p .listAssetProfiles) (h2 : p .listDeviceProfiles) :
    AllCalls (get_all_profiles env) p := by
  intro c hc
  simp only [get_all_profiles, List.mem_cons, List.not_mem_nil, or_false] at hc
  rcases hc with rfl | rfl
  · exact h1
  · exact h2

lemma AllCalls.of_create_asset {env : Env} {p : Call → Prop} {n pid tn : String}
    (h : p (.createAsset n pid tn)) : AllCalls (create_asset env n pid tn) p :=
  AllCalls.of_single rfl h

lemma AllCalls.of_send_asset_attributes {env : Env} {p : Call → Prop}
    {et ei : String} {la lo : Rat} (h : p (.setServerAttributes et ei la lo)) :
    AllCalls (send_asset_attributes env et ei la lo) p :=
  AllCalls.of_single rfl h

lemma AllCalls.of_create_device {env : Env} {p : Call → Prop} {n pid : String}
    (h : p (.createDevice n pid)) : AllCalls (create_device env n pid) p :=
  AllCalls.of_single rfl h

lemma AllCalls.of_assign_child_asset {env : Env} {p : Call → Prop} {a b : String}
    (h : p (.createRelation a "ASSET" b "ASSET")) : AllCalls (assign_child_asset env a b) p :=
  AllCalls.of_single rfl h

lemma AllCalls.of_assign_device {env : Env} {p : Call → Prop} {did aid : String}
    (h : p (.createRelation aid "ASSET" did "DEVICE")) :
    AllCalls (assign_device_to_asset env did aid) p :=
  AllCalls.of_single rfl h

lemma AllCalls.of_check_relation {env : Env} {p : Call → Prop} {a b pt ct : String}
    (h : p (.checkRelation a pt b ct)) : AllCalls (check_relation_exists env a b pt ct) p :=
  AllCalls.of_single rfl h

lemma AllCalls.of_get_credentials {env : Env} {p : Call → Prop} {did : String}
    (h : p (.getCredentials did)) : AllCalls (get_device_credentials env did) p :=
  AllCalls.of_single rfl h

lemma AllCalls.of_send_telemetry {env : Env} {cfg : Config} {rt : Runtime}
    {p : Call → Prop} {tok : String}
    (h : p (.postTelemetry tok
      ⟨cfg.serial_number, rt.COUNTRY_NAME, rt.STATE_NAME, rt.LAT, rt.LON, env.temperature⟩)) :
    AllCalls (send_telemetry env cfg rt tok) p :=
  AllCalls.of_single rfl h

lemma AllCalls.of_locateOrCreateState {env : Env} {cfg : Config} {rt : Runtime}
    {p : Call → Prop} {spid : String} {assets : List Asset}
    (h1 : p (.createAsset rt.STATE_NAME spid cfg.state_profile_name))
    (h2 : ∀ ei, p (.setServerAttributes "ASSET" ei rt.LAT rt.LON)) :
    AllCalls (locateOrCreateState env cfg rt spid assets) p := by
  unfold locateOrCreateState
  cases findAssetByNameCI assets rt.STATE_NAME with
  | some sa => exact AllCalls.of_pure sa p
  | none =>
    apply AllCalls.catchExit
    apply AllCalls.andThen (AllCalls.of_create_asset h1)
    intro sa
    apply AllCalls.andThen (AllCalls.of_send_asset_attributes (h2 sa.id))
    intro _
    exact AllCalls.of_pure sa p

lemma AllCalls.of_ensureStateLinked {env : Env} {p : Call → Prop} {cid sid : String}
    (h1 : p (.checkRelation cid "ASSET" sid "ASSET"))
    (h2 : p (.createRelation cid "ASSET" sid "ASSET")) :
    AllCalls (ensureStateLinked env cid sid) p := by
  unfold ensureStateLinked
  apply AllCalls.andThen (AllCalls.of_check_relation h1)
  intro linked
  cases linked with
  | false => exact AllCalls.of_assign_child_asset h2
  | true => exact AllCalls.of_pure () p

/-- Spine lemma: a predicate holds of every call a run issues as soon as it
holds of every call each individual step can issue. -/
lemma runCore_allCalls (cfg : Config) (rt : Runtime) (env : Env) (p : Call → Prop)
    (hval : AllCalls (validate_token env) p)
    (hlist : AllCalls (list_all_assets env) p)
    (hgap : ∀ n, AllCalls (get_asset_profile_id_by_name env n) p)
    (hgdp : ∀ n, AllCalls (get_device_profile_id_by_name env n) p)
    (hgal : AllCalls (get_all_profiles env) p)
    (hlocs : ∀ spid assets, AllCalls (locateOrCreateState env cfg rt spid assets) p)
    (hens : ∀ cid sid, AllCalls (ensureStateLinked env cid sid) p)
    (hcd : ∀ n pid, AllCalls (create_device env n pid) p)
    (hada : ∀ did aid, AllCalls (assign_device_to_asset env did aid) p)
    (hgc : ∀ did, AllCalls (get_device_credentials env did) p)
    (hst : ∀ tok, AllCalls (send_telemetry env cfg rt tok) p) :
    AllCalls (runCore cfg rt env) p := by
  unfold runCore authGate resolvePhase profileDispatch profileMissing provisionSteps provisionFromCountry deviceAndTelemetry
  apply AllCalls.andThen hval
  intro valid
  cases valid with
  | false => exact AllCalls.of_exit 1 p
  | true =>
    rw [if_pos rfl]
    apply AllCalls.andThen hlist
    intro _
    apply AllCalls.andThen (hgap _)
    intro country_profile_id
    apply AllCalls.andThen (hgap _)
    intro state_profile_id
    apply AllCalls.andThen (hgdp _)
    intro device_profile_id
    cases country_profile_id with
    | none =>
      apply AllCalls.andThen (AllCalls.of_diag _ p)
      intro _
      exact AllCalls.andThen hgal fun _ => AllCalls.of_exit 1 p
    | some cpid =>
      cases state_profile_id with
      | none =>
        apply AllCalls.andThen (AllCalls.of_diag _ p)
        intro _
        exact AllCalls.andThen hgal fun _ => AllCalls.of_exit 1 p
      | some spid =>
        cases device_profile_id with
        | none =>
          apply AllCalls.andThen (AllCalls.of_diag _ p)
          intro _
          exact AllCalls.andThen hgal fun _ => AllCalls.of_exit 1 p
        | some dpid =>
          apply AllCalls.andThen hlist
          intro all_assets
          cases findAssetByNameCI all_assets rt.COUNTRY_NAME with
          | none => exact AllCalls.of_exit 1 p
          | some country_asset =>
            apply AllCalls.andThen (hlocs _ _)
            intro state_asset
            apply AllCalls.andThen (hens _ _)
            intro _
            apply AllCalls.andThen (hcd _ _)
            intro device
            apply AllCalls.andThen (hada _ _)
            intro _
            apply AllCalls.andThen (hgc _)
            intro device_token
            exact hst _

/-- When the existence probe answers HTTP 200, the linking step consists of
exactly the probe call and succeeds without creating anything. -/
lemma ensureStateLinked_of_exists {env : Env} {country_id state_id : String}
    (h : env.relationProbeResp country_id state_id = some 200) :
    ensureStateLinked env country_id state_id =
      ⟨[Call.checkRelation country_id "ASSET" state_id "ASSET"], [], .ok ()⟩ := by
  simp [ensureStateLinked, check_relation_exists, StepOut.andThen, h, pureStep]

/-- Claim C2: linking a state to a country is idempotent.  When the Contains
relation already exists (the probe returns 200), the linking step issues zero
relation-create calls (its trace is exactly the probe) and, when every probe
of the run answers 200, the whole run issues no asset-to-asset relation
creation, so a re-run never duplicates the country-to-state edge. -/
theorem c2_state_link_idempotent (env : Env) (country_id state_id : String)
    (hprobe : env.relationProbeResp country_id state_id = some 200) :
    (ensureStateLinked env country_id state_id).calls.countP Call.isCreateRelation = 0 ∧
    (ensureStateLinked env country_id state_id).calls =
      [Call.checkRelation country_id "ASSET" state_id "ASSET"] ∧
    (ensureStateLinked env country_id state_id).res = .ok () ∧
    (∀ (cfg : Config) (geo : Option GeoFix),
      (∀ x y, env.relationProbeResp x y = some 200) →
      ∀ c ∈ (run cfg geo env).calls, Call.isAssetAssetRelationCreate c = false) := by
  have he := ensureStateLinked_of_exists hprobe
  refine ⟨by rw [he]; rfl, by rw [he], by rw [he], ?_⟩
  intro cfg geo hall
  show AllCalls (run cfg geo env) fun c => Call.isAssetAssetRelationCreate c = false
  unfold run
  apply runCore_allCalls
  · exact AllCalls.of_validate_token rfl
  · exact AllCalls.of_list_all_assets rfl
  · intro n
    exact AllCalls.of_gap rfl
  · intro n
    exact AllCalls.of_gdp rfl
  · exact AllCalls.of_get_all_profiles rfl rfl
  · intro spid assets
    exact AllCalls.of_locateOrCreateState rfl fun _ => rfl
  · intro cid sid
    rw [ensureStateLinked_of_exists (hall cid sid)]
    exact AllCalls.of_single rfl rfl
  · intro n pid
    exact AllCalls.of_create_device rfl
  · intro did aid
    exact AllCalls.of_assign_device (by simp [Call.isAssetAssetRelationCreate])
  · intro did
    exact AllCalls.of_get_credentials rfl
  · intro tok
    exact AllCalls.of_send_telemetry rfl

/-- Claim C1: in the scenario where the country asset exists remotely, the
state asset does not, and all three profiles resolve, a successful run issues
exactly one create-asset call (for the state), one set-server-attributes
call, one country-to-state create-relation call, one create-device call, one
state-to-device create-relation call, one get-credential call and one
telemetry POST, in exactly that order. -/
theorem c1_scenario_call_order
    (cfg : Config) (geo : Option GeoFix) (env : Env)
    (assets : List Asset) (cps sps dps : List Profile) (cpid spid dpid : String)
    (ca sa dev : Asset) (tok : String) (st : Nat)
    (hwho : env.whoamiStatus = some 200)
    (hlist : env.listAssetsResp = some assets)
    (hcp : env.assetProfilesResp cfg.country_profile_name = some cps)
    (hcp2 : profileIdFromListing cps cfg.country_profile_name = some cpid)
    (hsp : env.assetProfilesResp cfg.state_profile_name = some sps)
    (hsp2 : profileIdFromListing sps cfg.state_profile_name = some spid)
    (hdp : env.deviceProfilesResp cfg.device_profile_name = some dps)
    (hdp2 : profileIdFromListing dps cfg.device_profile_name = some dpid)
    (hca : findAssetByNameCI assets cfg.country_name = some ca)
    (hsa : findAssetByNameCI assets cfg.state_name = none)
    (hcr : env.createAssetResp = some sa)
    (hattr : env.setAttrsOk = true)
    (hprobe : env.relationProbeResp ca.id sa.id = some st)
    (hst : (st == 200) = false)
    (hrel : env.childRelOk = true)
    (hdev : env.createDeviceResp = some dev)
    (hdrel : env.deviceRelOk = true)
    (htok : env.credentialsResp = some tok)
    (htel : env.telemetryOk = true) :
    (run cfg geo env).calls.filter Call.isProvisioningEffect =
      [Call.createAsset cfg.state_name spid cfg.state_profile_name,
       Call.setServerAttributes "ASSET" sa.id
         (resolveRuntime cfg geo).LAT (resolveRuntime cfg geo).LON,
       Call.createRelation ca.id "ASSET" sa.id "ASSET",
       Call.createDevice (generate_device_name env cfg.country_name cfg.state_name) dpid,
       Call.createRelation sa.id "ASSET" dev.id "DEVICE",
       Call.getCredentials dev.id,
       Call.postTelemetry tok
         ⟨cfg.serial_number, cfg.country_name, cfg.state_name,
          (resolveRuntime cfg geo).LAT, (resolveRuntime cfg geo).LON, env.temperature⟩] ∧
    (run cfg geo env).res = .ok () := by
  have hrun : run cfg geo env =
      ⟨[Call.whoami, Call.listAssets,
        Call.searchAssetProfiles cfg.country_profile_name,
        Call.searchAssetProfiles cfg.state_profile_name,
        Call.searchDeviceProfiles cfg.device_profile_name,
        Call.listAssets,
        Call.createAsset cfg.state_name spid cfg.state_profile_name,
        Call.setServerAttributes "ASSET" sa.id
          (resolveRuntime cfg geo).LAT (resolveRuntime cfg geo).LON,
        Call.checkRelation ca.id "ASSET" sa.id "ASSET",
        Call.createRelation ca.id "ASSET" sa.id "ASSET",
        Call.createDevice (generate_device_name env cfg.country_name cfg.state_name) dpid,
        Call.createRelation sa.id "ASSET" dev.id "DEVICE",
        Call.getCredentials dev.id,
        Call.postTelemetry tok
          ⟨cfg.serial_number, cfg.country_name, cfg.state_name,
           (resolveRuntime cfg geo).LAT, (resolveRuntime cfg geo).LON, env.temperature⟩],
       [], .ok ()⟩ := by
    simp only [run, runCore, authGate, resolvePhase, profileDispatch, provisionSteps, provisionFromCountry, deviceAndTelemetry,
      validate_token, list_all_assets, get_asset_profile_id_by_name,
      get_device_profile_id_by_name, locateOrCreateState, ensureStateLinked,
      check_relation_exists, assign_child_asset, create_asset, send_asset_attributes,
      create_device, assign_device_to_asset, get_device_credentials, send_telemetry,
      profileMissing, diagStep, pureStep, exitStep, StepOut.andThen, StepOut.catchExit,
      resolveRuntime, hwho, hlist, hcp, hcp2, hsp, hsp2, hdp, hdp2, hcr, hattr, hrel,
      hdev, hdrel, htok, htel, Option.getD_some, beq_self_eq_true, if_true]
    simp only [hca, hsa, hprobe, hst]
    simp
  rw [hrun]
  refine ⟨?_, rfl⟩
  simp [List.filter, Call.isProvisioningEffect]

/-! ## Concrete fixtures used to instantiate the theorems -/

def cfgW : Config where
  country_name := "UK"
  state_name := "LONDON"
  serial_number := "SN-1"
  latitude := 10
  longitude := 20
  country_profile_name := "CountryProfile"
  state_profile_name := "StateProfile"
  device_profile_name := "DeviceProfile"
  device_profile_id := "dp1"

/-- A catalog in the Scenario state: the country asset exists, the state
asset does not, all three profiles resolve, every later call succeeds, and
the freshly created state is not yet linked to the country (probe 404). -/
def envScenario : Env where
  whoamiStatus := some 200
  listAssetsResp := some [⟨"UK", "Country", "uk1"⟩]
  assetProfilesResp := fun n =>
    if n == "CountryProfile" then some [⟨"CountryProfile", "cp1"⟩]
    else if n == "StateProfile" then some [⟨"StateProfile", "sp1"⟩]
    else some []
  deviceProfilesResp := fun n =>
    if n == "DeviceProfile" then some [⟨"DeviceProfile", "dp1"⟩] else some []
  allAssetProfilesResp := some [⟨"CountryProfile", "cp1"⟩, ⟨"StateProfile", "sp1"⟩]
  allDeviceProfilesResp := some [⟨"DeviceProfile", "dp1"⟩]
  hostnameResp := some "host-1"
  timestamp := "t0"
  createAssetResp := some ⟨"LONDON", "StateProfile", "lon1"⟩
  setAttrsOk := true
  relationProbeResp := fun _ _ => some 404
  childRelOk := true
  createDeviceResp := some ⟨"host-1", "", "dev1"⟩
  deviceRelOk := true
  credentialsResp := some "tok1"
  telemetryOk := true
  temperature := 25

/-- The same remote catalog one run later: state present and linked. -/
def envSecondRun : Env :=
  { envScenario with
      listAssetsResp := some [⟨"UK", "Country", "uk1"⟩, ⟨"LONDON", "StateProfile", "lon1"⟩]
      relationProbeResp := fun _ _ => some 200
      createDeviceResp := some ⟨"host-1", "", "dev2"⟩ }

theorem c1_scenario_call_order_witness :
    (run cfgW none envScenario).calls.filter Call.isProvisioningEffect =
      [Call.createAsset "LONDON" "sp1" "StateProfile",
       Call.setServerAttributes "ASSET" "lon1" 10 20,
       Call.createRelation "uk1" "ASSET" "lon1" "ASSET",
       Call.createDevice "host-1" "dp1",
       Call.createRelation "lon1" "ASSET" "dev1" "DEVICE",
       Call.getCredentials "dev1",
       Call.postTelemetry "tok1" ⟨"SN-1", "UK", "LONDON", 10, 20, 25⟩] ∧
    (run cfgW none envScenario).res = .ok () :=
  c1_scenario_call_order cfgW none envScenario
    [⟨"UK", "Country", "uk1"⟩] [⟨"CountryProfile", "cp1"⟩] [⟨"StateProfile", "sp1"⟩]
    [⟨"DeviceProfile", "dp1"⟩] "cp1" "sp1" "dp1"
    ⟨"UK", "Country", "uk1"⟩ ⟨"LONDON", "StateProfile", "lon1"⟩ ⟨"host-1", "", "dev1"⟩
    "tok1" 404 rfl rfl (by decide) (by decide) (by decide) (by decide) (by decide) (by decide)
    (by decide) (by decide) rfl rfl rfl (by decide) rfl rfl rfl rfl rfl

theorem c2_state_link_idempotent_witness :
    envSecondRun.relationProbeResp "uk1" "lon1" = some 200 ∧
    (ensureStateLinked envSecondRun "uk1" "lon1").calls.countP Call.isCreateRelation = 0 ∧
    (ensureStateLinked envSecondRun "uk1" "lon1").res = .ok () :=
  ⟨rfl,
   (c2_state_link_idempotent envSecondRun "uk1" "lon1" rfl).1,
   (c2_state_link_idempotent envSecondRun "uk1" "lon1" rfl).2.2.1⟩

/-- Claim C5: any whoami outcome other than HTTP 200 (401, 403, other
statuses, or a raised exception) halts the run with exit status 1 and a trace
consisting of the whoami call alone, before any entity lookup, profile lookup
or creation call; a 200 response lets the run proceed to the asset listing. -/
theorem c5_auth_fail_fast (cfg : Config) (geo : Option GeoFix) (env : Env) :
    (env.whoamiStatus ≠ some 200 →
      run cfg geo env = ⟨[Call.whoami], [], .exit 1⟩) ∧
    (env.whoamiStatus = some 200 →
      (run cfg geo env).calls.take 2 = [Call.whoami, Call.listAssets]) := by
  constructor
  · intro h
    have hb : (env.whoamiStatus == some 200) = false := by
      simpa using h
    simp [run, runCore, authGate, validate_token, StepOut.andThen, hb, exitStep]
  · intro h
    simp [run, runCore, authGate, resolvePhase, validate_token, list_all_assets,
      StepOut.andThen, h, List.take]

def env401 : Env := { envScenario with whoamiStatus := some 401 }

theorem c5_auth_fail_fast_witness :
    run cfgW none env401 = ⟨[Call.whoami], [], .exit 1⟩ ∧
    (run cfgW none envScenario).calls.take 2 = [Call.whoami, Call.listAssets] :=
  ⟨(c5_auth_fail_fast cfgW none env401).1 (by decide),
   (c5_auth_fail_fast cfgW none envScenario).2 rfl⟩

/-- Claim C6: profile resolution matches the requested name by exact
case-sensitive equality against the listed profiles of the requested kind,
and a miss on any of the three lookups (checked country first, then state,
then device) terminates the run with exit status 1 after printing the
searched name and the dump of all available profiles of that kind. -/
theorem c6_profile_resolution (cfg : Config) (geo : Option GeoFix) (env : Env)
    (apl dpl cps sps dps2 : List Profile)
    (hwho : env.whoamiStatus = some 200)
    (haps : env.allAssetProfilesResp = some apl)
    (hdps : env.allDeviceProfilesResp = some dpl)
    (hc : env.assetProfilesResp cfg.country_profile_name = some cps)
    (hs : env.assetProfilesResp cfg.state_profile_name = some sps)
    (hd : env.deviceProfilesResp cfg.device_profile_name = some dps2) :
    (∀ (ps : List Profile) (n : String),
      (profileIdFromListing ps n).isSome = true ↔ ∃ p ∈ ps, p.name = n) ∧
    (profileIdFromListing cps cfg.country_profile_name = none →
      (run cfg geo env).res = .exit 1 ∧
      Diag.profileNotFound cfg.country_profile_name ∈ (run cfg geo env).diags ∧
      Diag.availableAssetProfiles (apl.map Profile.name) ∈ (run cfg geo env).diags ∧
      Diag.availableDeviceProfiles (dpl.map Profile.name) ∈ (run cfg geo env).diags) ∧
    (∀ cpid, profileIdFromListing cps cfg.country_profile_name = some cpid →
      profileIdFromListing sps cfg.state_profile_name = none →
      (run cfg geo env).res = .exit 1 ∧
      Diag.profileNotFound cfg.state_profile_name ∈ (run cfg geo env).diags ∧
      Diag.availableAssetProfiles (apl.map Profile.name) ∈ (run cfg geo env).diags ∧
      Diag.availableDeviceProfiles (dpl.map Profile.name) ∈ (run cfg geo env).diags) ∧
    (∀ cpid spid, profileIdFromListing cps cfg.country_profile_name = some cpid →
      profileIdFromListing sps cfg.state_profile_name = some spid →
      profileIdFromListing dps2 cfg.device_profile_name = none →
      (run cfg geo env).res = .exit 1 ∧
      Diag.profileNotFound cfg.device_profile_name ∈ (run cfg geo env).diags ∧
      Diag.availableAssetProfiles (apl.map Profile.name) ∈ (run cfg geo env).diags ∧
      Diag.availableDeviceProfiles (dpl.map Profile.name) ∈ (run cfg geo env).diags) := by
  refine ⟨?_, ?_, ?_, ?_⟩
  · intro ps n
    simp [profileIdFromListing, List.find?_isSome, beq_iff_eq]
  · intro hnone
    simp [run, runCore, authGate, resolvePhase, profileDispatch, validate_token, list_all_assets,
      get_asset_profile_id_by_name, get_device_profile_id_by_name, get_all_profiles,
      profileMissing, diagStep, exitStep,
      StepOut.andThen, hwho, haps, hdps, hc, hs, hd, hnone]
  · intro cpid hcpid hnone
    simp [run, runCore, authGate, resolvePhase, profileDispatch, validate_token, list_all_assets,
      get_asset_profile_id_by_name, get_device_profile_id_by_name, get_all_profiles,
      profileMissing, diagStep, exitStep,
      StepOut.andThen, hwho, haps, hdps, hc, hs, hd, hcpid, hnone]
  · intro cpid spid hcpid hspid hnone
    simp [run, runCore, authGate, resolvePhase, profileDispatch, validate_token, list_all_assets,
      get_asset_profile_id_by_name, get_device_profile_id_by_name, get_all_profiles,
      profileMissing, diagStep, exitStep,
      StepOut.andThen, hwho, haps, hdps, hc, hs, hd, hcpid, hspid, hnone]

def envNoProfile : Env := { envScenario with assetProfilesResp := fun _ => some [] }

theorem c6_profile_resolution_witness :
    (run cfgW none envNoProfile).res = .exit 1 ∧
    Diag.profileNotFound "CountryProfile" ∈ (run cfgW none envNoProfile).diags ∧
    ((profileIdFromListing [⟨"CountryProfile", "cp1"⟩] "CountryProfile").isSome = true ↔
      ∃ p ∈ [(⟨"CountryProfile", "cp1"⟩ : Profile)], p.name = "CountryProfile") := by
  have h := c6_profile_resolution cfgW none envNoProfile
    [⟨"CountryProfile", "cp1"⟩, ⟨"StateProfile", "sp1"⟩] [⟨"DeviceProfile", "dp1"⟩]
    [] [] [⟨"DeviceProfile", "dp1"⟩] rfl rfl rfl rfl rfl (by decide)
  exact ⟨(h.2.1 rfl).1, (h.2.1 rfl).2.1, h.1 [⟨"CountryProfile", "cp1"⟩] "CountryProfile"⟩

lemma mem_calls_andThen_left {α β : Type} {x : StepOut α} {f : α → StepOut β} {c : Call}
    (h : c ∈ x.calls) : c ∈ (x.andThen f).calls := by
  unfold StepOut.andThen
  cases hr : x.res <;> simp [h]

lemma catchExit_calls {α : Type} (x : StepOut α) (n : Nat) :
    (x.catchExit n).calls = x.calls := by
  unfold StepOut.catchExit
  cases hr : x.res <;> rfl

/-- Claim C4: the country-location step scans all listed assets for an exact
case-insensitive name match with no type filter; when no asset matches, the
run exits with status 1 having created nothing; create-asset calls, when they
happen, always carry the configured state name (the country is never
auto-created), and a missing state asset is auto-created with the resolved
state profile id. -/
theorem c4_country_never_autocreated (cfg : Config) (geo : Option GeoFix) (env : Env)
    (assets : List Asset) (cps sps dps2 : List Profile) (cpid spid dpid : String)
    (hwho : env.whoamiStatus = some 200)
    (hlist : env.listAssetsResp = some assets)
    (hc : env.assetProfilesResp cfg.country_profile_name = some cps)
    (hc2 : profileIdFromListing cps cfg.country_profile_name = some cpid)
    (hs : env.assetProfilesResp cfg.state_profile_name = some sps)
    (hs2 : profileIdFromListing sps cfg.state_profile_name = some spid)
    (hd : env.deviceProfilesResp cfg.device_profile_name = some dps2)
    (hd2 : profileIdFromListing dps2 cfg.device_profile_name = some dpid) :
    (∀ (l : List Asset) (n : String),
      (findAssetByNameCI l n).isSome = true ↔ ∃ a ∈ l, strUpper a.name = strUpper n) ∧
    (findAssetByNameCI assets cfg.country_name = none →
      (run cfg geo env).res = .exit 1 ∧
      (run cfg geo env).calls.filter Call.isCreateAsset = [] ∧
      (run cfg geo env).calls.filter Call.isCreateDevice = []) ∧
    (∀ c ∈ (run cfg geo env).calls, Call.isCreateAsset c = true →
      Call.createAssetName c = cfg.state_name) ∧
    (∀ ca, findAssetByNameCI assets cfg.country_name = some ca →
      findAssetByNameCI assets cfg.state_name = none →
      Call.createAsset cfg.state_name spid cfg.state_profile_name ∈ (run cfg geo env).calls) := by
  refine ⟨?_, ?_, ?_, ?_⟩
  · intro l n
    simp [findAssetByNameCI, List.find?_isSome, beq_iff_eq]
  · intro hnone
    have hnone2 : findAssetByNameCI assets (resolveRuntime cfg geo).COUNTRY_NAME = none := hnone
    simp [run, runCore, authGate, resolvePhase, profileDispatch, provisionSteps, validate_token, list_all_assets,
      get_asset_profile_id_by_name, get_device_profile_id_by_name, profileMissing, diagStep,
      exitStep, StepOut.andThen, hwho, hlist, hc, hc2, hs, hs2, hd, hd2, hnone2,
      Call.isCreateAsset, Call.isCreateDevice, List.filter]
  · show AllCalls (run cfg geo env) fun c =>
      Call.isCreateAsset c = true → Call.createAssetName c = cfg.state_name
    unfold run
    apply runCore_allCalls
    · exact AllCalls.of_validate_token (by intro h; cases h)
    · exact AllCalls.of_list_all_assets (by intro h; cases h)
    · intro n
      exact AllCalls.of_gap (by intro h; cases h)
    · intro n
      exact AllCalls.of_gdp (by intro h; cases h)
    · exact AllCalls.of_get_all_profiles (by intro h; cases h) (by intro h; cases h)
    · intro spid2 assets2
      exact AllCalls.of_locateOrCreateState (fun _ => rfl) (fun _ h => by cases h)
    · intro cid sid
      exact AllCalls.of_ensureStateLinked (by intro h; cases h) (by intro h; cases h)
    · intro n pid
      exact AllCalls.of_create_device (by intro h; cases h)
    · intro did aid
      exact AllCalls.of_assign_device (by intro h; cases h)
    · intro did
      exact AllCalls.of_get_credentials (by intro h; cases h)
    · intro tok
      exact AllCalls.of_send_telemetry (by intro h; cases h)
  · intro ca hca hsa
    have hca2 : findAssetByNameCI assets (resolveRuntime cfg geo).COUNTRY_NAME = some ca := hca
    have hmem : Call.createAsset cfg.state_name spid cfg.state_profile_name ∈
        (provisionFromCountry env cfg (resolveRuntime cfg geo) spid dpid assets ca).calls := by
      unfold provisionFromCountry
      apply mem_calls_andThen_left
      unfold locateOrCreateState
      have hsn : findAssetByNameCI assets (resolveRuntime cfg geo).STATE_NAME = none := hsa
      rw [hsn, catchExit_calls]
      apply mem_calls_andThen_left
      exact List.mem_singleton.mpr rfl
    simp only [run, runCore, authGate, resolvePhase, profileDispatch, provisionSteps, validate_token, list_all_assets,
      get_asset_profile_id_by_name, get_device_profile_id_by_name, profileMissing, diagStep,
      exitStep, StepOut.andThen, hwho, hlist, hc, hc2, hs, hs2, hd, hd2, hca2,
      Option.getD_some, beq_self_eq_true, if_pos]
    simp only [List.mem_cons, List.mem_append, List.cons_append, List.nil_append]
    tauto

def envNoCountry : Env := { envScenario with listAssetsResp := some [] }

theorem c4_country_never_autocreated_witness :
    (run cfgW none envNoCountry).res = .exit 1 ∧
    (run cfgW none envNoCountry).calls.filter Call.isCreateAsset = [] ∧
    Call.createAsset "LONDON" "sp1" "StateProfile" ∈ (run cfgW none envScenario).calls := by
  have h1 := c4_country_never_autocreated cfgW none envNoCountry
    [] [⟨"CountryProfile", "cp1"⟩] [⟨"StateProfile", "sp1"⟩] [⟨"DeviceProfile", "dp1"⟩]
    "cp1" "sp1" "dp1" rfl rfl (by decide) (by decide) (by decide) (by decide)
    (by decide) (by decide)
  have h2 := c4_country_never_autocreated cfgW none envScenario
    [⟨"UK", "Country", "uk1"⟩] [⟨"CountryProfile", "cp1"⟩] [⟨"StateProfile", "sp1"⟩]
    [⟨"DeviceProfile", "dp1"⟩] "cp1" "sp1" "dp1" rfl rfl (by decide) (by decide)
    (by decide) (by decide) (by decide) (by decide)
  exact ⟨(h1.2.1 rfl).1, (h1.2.1 rfl).2.1,
    h2.2.2.2 ⟨"UK", "Country", "uk1"⟩ (by decide) (by decide)⟩

/-! ## Geolocation noninterference (C9) -/

/-- Erase the coordinate fields of a call, leaving everything else (names,
ids, tokens, temperature) intact. -/
def scrubCall : Call → Call
  | .setServerAttributes et ei _ _ => .setServerAttributes et ei 0 0
  | .postTelemetry tok p =>
    .postTelemetry tok ⟨p.serialNumber, p.country, p.state, 0, 0, p.temperature⟩
  | c => c

/-- Two fragments agree up to coordinates: same calls with coordinates
erased, same diagnostics, same result. -/
def ScrubEq {α : Type} (x y : StepOut α) : Prop :=
  x.calls.map scrubCall = y.calls.map scrubCall ∧ x.diags = y.diags ∧ x.res = y.res

lemma ScrubEq.refl {α : Type} (x : StepOut α) : ScrubEq x x := ⟨rfl, rfl, rfl⟩

lemma ScrubEq.seq_congr {α β : Type} {x y : StepOut α} {f g : α → StepOut β}
    (h : ScrubEq x y) (hf : ∀ a, ScrubEq (f a) (g a)) :
    ScrubEq (x.andThen f) (y.andThen g) := by
  obtain ⟨hc, hd, hr⟩ := h
  cases hx : x.res with
  | ok a =>
    have hy : y.res = .ok a := by rw [← hr, hx]
    unfold StepOut.andThen
    rw [hx, hy]
    refine ⟨?_, ?_, ?_⟩ <;>
      simp [List.map_append, hc, hd, (hf a).1, (hf a).2.1, (hf a).2.2]
  | exit c =>
    have hy : y.res = .exit c := by rw [← hr, hx]
    unfold StepOut.andThen
    rw [hx, hy]
    exact ⟨hc, hd, rfl⟩
  | crash =>
    have hy : y.res = .crash := by rw [← hr, hx]
    unfold StepOut.andThen
    rw [hx, hy]
    exact ⟨hc, hd, rfl⟩

lemma ScrubEq.catch_congr {α : Type} {x y : StepOut α} {n : Nat} (h : ScrubEq x y) :
    ScrubEq (x.catchExit n) (y.catchExit n) := by
  obtain ⟨hc, hd, hr⟩ := h
  cases hx : x.res with
  | ok a =>
    have hy : y.res = .ok a := by rw [← hr, hx]
    unfold StepOut.catchExit
    rw [hx, hy]
    exact ⟨hc, hd, rfl⟩
  | exit c =>
    have hy : y.res = .exit c := by rw [← hr, hx]
    unfold StepOut.catchExit
    rw [hx, hy]
    exact ⟨hc, hd, rfl⟩
  | crash =>
    have hy : y.res = .crash := by rw [← hr, hx]
    unfold StepOut.catchExit
    rw [hx, hy]
    exact ⟨hc, hd, rfl⟩

lemma locate_scrub (env : Env) (cfg : Config) (cn sn : String) (la lo la2 lo2 : Rat)
    (spid : String) (assets : List Asset) :
    ScrubEq (locateOrCreateState env cfg ⟨cn, sn, la, lo⟩ spid assets)
      (locateOrCreateState env cfg ⟨cn, sn, la2, lo2⟩ spid assets) := by
  unfold locateOrCreateState
  cases findAssetByNameCI assets sn with
  | some sa => exact ScrubEq.refl _
  | none =>
    apply ScrubEq.catch_congr
    apply ScrubEq.seq_congr (ScrubEq.refl _)
    intro sa
    apply ScrubEq.seq_congr
    · exact ⟨by simp [send_asset_attributes, scrubCall], rfl, rfl⟩
    · intro _
      exact ScrubEq.refl _

lemma telemetry_scrub (env : Env) (cfg : Config) (cn sn : String) (la lo la2 lo2 : Rat)
    (tok : String) :
    ScrubEq (send_telemetry env cfg ⟨cn, sn, la, lo⟩ tok)
      (send_telemetry env cfg ⟨cn, sn, la2, lo2⟩ tok) :=
  ⟨by simp [send_telemetry, scrubCall], rfl, rfl⟩

lemma deviceAndTelemetry_scrub (env : Env) (cfg : Config) (cn sn : String)
    (la lo la2 lo2 : Rat) (state_asset : Asset) (device_pid : String) :
    ScrubEq (deviceAndTelemetry env cfg ⟨cn, sn, la, lo⟩ state_asset device_pid)
      (deviceAndTelemetry env cfg ⟨cn, sn, la2, lo2⟩ state_asset device_pid) := by
  unfold deviceAndTelemetry
  apply ScrubEq.seq_congr (ScrubEq.refl _)
  intro device
  apply ScrubEq.seq_congr (ScrubEq.refl _)
  intro _
  apply ScrubEq.seq_congr (ScrubEq.refl _)
  intro device_token
  exact telemetry_scrub env cfg cn sn la lo la2 lo2 device_token

lemma provisionFromCountry_scrub (env : Env) (cfg : Config) (cn sn : String)
    (la lo la2 lo2 : Rat) (state_pid device_pid : String) (all_assets : List Asset)
    (country_asset : Asset) :
    ScrubEq
      (provisionFromCountry env cfg ⟨cn, sn, la, lo⟩ state_pid device_pid all_assets
        country_asset)
      (provisionFromCountry env cfg ⟨cn, sn, la2, lo2⟩ state_pid device_pid all_assets
        country_asset) := by
  unfold provisionFromCountry
  apply ScrubEq.seq_congr (locate_scrub env cfg cn sn la lo la2 lo2 state_pid all_assets)
  intro state_asset
  apply ScrubEq.seq_congr (ScrubEq.refl _)
  intro _
  exact deviceAndTelemetry_scrub env cfg cn sn la lo la2 lo2 state_asset device_pid

lemma provisionSteps_scrub (env : Env) (cfg : Config) (cn sn : String)
    (la lo la2 lo2 : Rat) (state_pid device_pid : String) :
    ScrubEq (provisionSteps env cfg ⟨cn, sn, la, lo⟩ state_pid device_pid)
      (provisionSteps env cfg ⟨cn, sn, la2, lo2⟩ state_pid device_pid) := by
  unfold provisionSteps
  apply ScrubEq.seq_congr (ScrubEq.refl _)
  intro all_assets
  cases findAssetByNameCI all_assets cn with
  | none => exact ScrubEq.refl _
  | some country_asset =>
    exact provisionFromCountry_scrub env cfg cn sn la lo la2 lo2 state_pid device_pid
      all_assets country_asset

lemma profileDispatch_scrub (env : Env) (cfg : Config) (cn sn : String)
    (la lo la2 lo2 : Rat) (ids : Option String × Option String × Option String) :
    ScrubEq (profileDispatch env cfg ⟨cn, sn, la, lo⟩ ids)
      (profileDispatch env cfg ⟨cn, sn, la2, lo2⟩ ids) := by
  unfold profileDispatch
  rcases ids with ⟨a, b, c⟩
  cases a with
  | none => exact ScrubEq.refl _
  | some cpid =>
    cases b with
    | none => exact ScrubEq.refl _
    | some spid =>
      cases c with
      | none => exact ScrubEq.refl _
      | some dpid => exact provisionSteps_scrub env cfg cn sn la lo la2 lo2 spid dpid

lemma authGate_scrub (env : Env) {k k2 : StepOut Unit} (h : ScrubEq k k2) :
    ScrubEq (authGate env k) (authGate env k2) := by
  unfold authGate
  apply ScrubEq.seq_congr (ScrubEq.refl _)
  intro valid
  cases valid with
  | false => exact ScrubEq.refl _
  | true =>
    rw [if_pos rfl, if_pos rfl]
    exact h

lemma resolvePhase_scrub (env : Env) (cfg : Config)
    {k k2 : Option String × Option String × Option String → StepOut Unit}
    (h : ∀ ids, ScrubEq (k ids) (k2 ids)) :
    ScrubEq (resolvePhase env cfg k) (resolvePhase env cfg k2) := by
  unfold resolvePhase
  apply ScrubEq.seq_congr (ScrubEq.refl _)
  intro _
  apply ScrubEq.seq_congr (ScrubEq.refl _)
  intro country_profile_id
  apply ScrubEq.seq_congr (ScrubEq.refl _)
  intro state_profile_id
  apply ScrubEq.seq_congr (ScrubEq.refl _)
  intro device_profile_id
  exact h (country_profile_id, state_profile_id, device_profile_id)

lemma runCore_scrub (cfg : Config) (env : Env) (cn sn : String) (la lo la2 lo2 : Rat) :
    ScrubEq (runCore cfg ⟨cn, sn, la, lo⟩ env) (runCore cfg ⟨cn, sn, la2, lo2⟩ env) := by
  unfold runCore
  exact authGate_scrub env (resolvePhase_scrub env cfg
    (fun ids => profileDispatch_scrub env cfg cn sn la lo la2 lo2 ids))

/-- Claim C9: the country and state names the run uses come from the
configuration alone.  Two runs that differ only in the geolocation response
(success, failure, or any returned country/region) have identical diagnostics,
identical results, and identical call traces up to the latitude/longitude
values; the resolved runtime names equal the configured ones whatever the
geolocation returned. -/
theorem c9_geo_noninterference (cfg : Config) (env : Env) (g g2 : Option GeoFix) :
    ((resolveRuntime cfg g).COUNTRY_NAME = cfg.country_name ∧
     (resolveRuntime cfg g).STATE_NAME = cfg.state_name) ∧
    ScrubEq (run cfg g env) (run cfg g2 env) := by
  refine ⟨⟨rfl, rfl⟩, ?_⟩
  unfold run
  exact runCore_scrub cfg env cfg.country_name cfg.state_name
    (resolveRuntime cfg g).LAT (resolveRuntime cfg g).LON
    (resolveRuntime cfg g2).LAT (resolveRuntime cfg g2).LON

/-! ## Structure of successful runs (C3) -/

lemma filter_eq_nil_of_allCalls {α : Type} {x : StepOut α} {p : Call → Bool}
    (h : AllCalls x fun c => p c = false) : x.calls.filter p = [] := by
  rw [List.filter_eq_nil_iff]
  intro a ha
  simpa using h a ha

/-- Any successful run created exactly one device, named after the host, and
issued exactly one asset-to-device relation create for it. -/
lemma run_success_structure (cfg : Config) (geo : Option GeoFix) (env : Env)
    (h : (run cfg geo env).res = .ok ()) :
    ∃ (dpid : String) (sa dev : Asset),
      env.createDeviceResp = some dev ∧
      (run cfg geo env).calls.filter Call.isCreateDevice =
        [Call.createDevice (generate_device_name env cfg.country_name cfg.state_name) dpid] ∧
      (run cfg geo env).calls.filter Call.isDeviceRelationCreate =
        [Call.createRelation sa.id "ASSET" dev.id "DEVICE"] := by
  unfold run runCore authGate at h ⊢
  have e0 : (validate_token env).res = .ok (env.whoamiStatus == some 200) := rfl
  rw [StepOut.andThen_of_ok e0] at h ⊢
  dsimp only at h ⊢
  cases hb : env.whoamiStatus == some 200 with
  | false =>
    rw [hb] at h
    simp [exitStep] at h
  | true =>
    rw [hb] at h
    rw [if_pos rfl] at h ⊢
    unfold resolvePhase at h ⊢
    have e1 : (list_all_assets env).res = .ok (env.listAssetsResp.getD []) := rfl
    rw [StepOut.andThen_of_ok e1] at h ⊢
    dsimp only at h ⊢
    cases hcresp : env.assetProfilesResp cfg.country_profile_name with
    | none =>
      have ec : (get_asset_profile_id_by_name env cfg.country_profile_name).res = .crash := by
        simp [get_asset_profile_id_by_name, hcresp]
      rw [StepOut.andThen_of_crash ec] at h
      simp at h
    | some cps =>
      have ec : (get_asset_profile_id_by_name env cfg.country_profile_name).res =
          .ok (profileIdFromListing cps cfg.country_profile_name) := by
        simp [get_asset_profile_id_by_name, hcresp]
      rw [StepOut.andThen_of_ok ec] at h ⊢
      dsimp only at h ⊢
      cases hsresp : env.assetProfilesResp cfg.state_profile_name with
      | none =>
        have es : (get_asset_profile_id_by_name env cfg.state_profile_name).res = .crash := by
          simp [get_asset_profile_id_by_name, hsresp]
        rw [StepOut.andThen_of_crash es] at h
        simp at h
      | some sps =>
        have es : (get_asset_profile_id_by_name env cfg.state_profile_name).res =
            .ok (profileIdFromListing sps cfg.state_profile_name) := by
          simp [get_asset_profile_id_by_name, hsresp]
        rw [StepOut.andThen_of_ok es] at h ⊢
        dsimp only at h ⊢
        cases hdresp : env.deviceProfilesResp cfg.device_profile_name with
        | none =>
          have ed : (get_device_profile_id_by_name env cfg.device_profile_name).res =
              .crash := by
            simp [get_device_profile_id_by_name, hdresp]
          rw [StepOut.andThen_of_crash ed] at h
          simp at h
        | some dps2 =>
          have ed : (get_device_profile_id_by_name env cfg.device_profile_name).res =
              .ok (profileIdFromListing dps2 cfg.device_profile_name) := by
            simp [get_device_profile_id_by_name, hdresp]
          rw [StepOut.andThen_of_ok ed] at h ⊢
          dsimp only at h ⊢
          cases ha : profileIdFromListing cps cfg.country_profile_name with
          | none =>
            rw [ha] at h
            simp [profileDispatch, profileMissing, get_all_profiles, diagStep, exitStep,
              StepOut.andThen] at h
          | some cpid =>
            cases hb2 : profileIdFromListing sps cfg.state_profile_name with
            | none =>
              rw [ha, hb2] at h
              simp [profileDispatch, profileMissing, get_all_profiles, diagStep, exitStep,
                StepOut.andThen] at h
            | some spid =>
              cases hc2 : profileIdFromListing dps2 cfg.device_profile_name with
              | none =>
                rw [ha, hb2, hc2] at h
                simp [profileDispatch, profileMissing, get_all_profiles, diagStep, exitStep,
                  StepOut.andThen] at h
              | some dpid =>
                rw [ha, hb2, hc2] at h
                unfold profileDispatch provisionSteps at h ⊢
                dsimp only at h ⊢
                rw [StepOut.andThen_of_ok e1] at h ⊢
                dsimp only at h ⊢
                cases hfc : findAssetByNameCI (env.listAssetsResp.getD [])
                    (resolveRuntime cfg geo).COUNTRY_NAME with
                | none =>
                  rw [hfc] at h
                  simp [exitStep] at h
                | some country_asset =>
                  rw [hfc] at h
                  dsimp only at h ⊢
                  unfold provisionFromCountry at h ⊢
                  obtain ⟨sa, hsa, h⟩ := StepOut.res_of_andThen_ok h
                  rw [StepOut.andThen_of_ok hsa]
                  dsimp only at h ⊢
                  obtain ⟨u, hens, h⟩ := StepOut.res_of_andThen_ok h
                  rw [StepOut.andThen_of_ok hens]
                  dsimp only at h ⊢
                  unfold deviceAndTelemetry at h ⊢
                  cases hdev : env.createDeviceResp with
                  | none =>
                    have ecd : (create_device env
                        (generate_device_name env (resolveRuntime cfg geo).COUNTRY_NAME
                          (resolveRuntime cfg geo).STATE_NAME) dpid).res = .crash := by
                      simp [create_device, hdev]
                    rw [StepOut.andThen_of_crash ecd] at h
                    simp at h
                  | some dev =>
                    have ecd : (create_device env
                        (generate_device_name env (resolveRuntime cfg geo).COUNTRY_NAME
                          (resolveRuntime cfg geo).STATE_NAME) dpid).res = .ok dev := by
                      simp [create_device, hdev]
                    rw [StepOut.andThen_of_ok ecd] at h ⊢
                    dsimp only at h ⊢
                    cases hdr : env.deviceRelOk with
                    | false =>
                      have ead : (assign_device_to_asset env dev.id sa.id).res = .crash := by
                        simp [assign_device_to_asset, hdr]
                      rw [StepOut.andThen_of_crash ead] at h
                      simp at h
                    | true =>
                      have ead : (assign_device_to_asset env dev.id sa.id).res = .ok () := by
                        simp [assign_device_to_asset, hdr]
                      rw [StepOut.andThen_of_ok ead] at h ⊢
                      dsimp only at h ⊢
                      cases htok : env.credentialsResp with
                      | none =>
                        have egc : (get_device_credentials env dev.id).res = .crash := by
                          simp [get_device_credentials, htok]
                        rw [StepOut.andThen_of_crash egc] at h
                        simp at h
                      | some tok =>
                        have egc : (get_device_credentials env dev.id).res = .ok tok := by
                          simp [get_device_credentials, htok]
                        rw [StepOut.andThen_of_ok egc] at h ⊢
                        dsimp only at h ⊢
                        refine ⟨dpid, sa, dev, rfl, ?_, ?_⟩ <;>
                        · have hl : (locateOrCreateState env cfg (resolveRuntime cfg geo) spid
                              (env.listAssetsResp.getD [])).calls.filter Call.isCreateDevice
                              = [] := by
                            apply filter_eq_nil_of_allCalls
                            exact AllCalls.of_locateOrCreateState rfl fun _ => rfl
                          have hl2 : (locateOrCreateState env cfg (resolveRuntime cfg geo) spid
                              (env.listAssetsResp.getD [])).calls.filter
                                Call.isDeviceRelationCreate = [] := by
                            apply filter_eq_nil_of_allCalls
                            exact AllCalls.of_locateOrCreateState rfl fun _ => rfl
                          have he : (ensureStateLinked env country_asset.id
                              sa.id).calls.filter Call.isCreateDevice = [] := by
                            apply filter_eq_nil_of_allCalls
                            exact AllCalls.of_ensureStateLinked rfl rfl
                          have he2 : (ensureStateLinked env country_asset.id
                              sa.id).calls.filter Call.isDeviceRelationCreate = [] := by
                            apply filter_eq_nil_of_allCalls
                            exact AllCalls.of_ensureStateLinked rfl rfl
                          simp [List.filter_append, hl, hl2, he, he2, validate_token,
                            list_all_assets, get_asset_profile_id_by_name,
                            get_device_profile_id_by_name, create_device,
                            assign_device_to_asset, get_device_credentials, send_telemetry,
                            List.filter, Call.isCreateDevice, Call.isDeviceRelationCreate]
                          try rfl

lemma applyCall_of_not_device {cat : Catalog} {c : Call}
    (h : Call.isCreateDevice c = false) : applyCall cat c = cat := by
  cases c <;> first
    | rfl
    | simp [Call.isCreateDevice] at h

lemma applyTrace_eq_filter (cat : Catalog) (tr : List Call) :
    applyTrace cat tr = applyTrace cat (tr.filter Call.isCreateDevice) := by
  induction tr generalizing cat with
  | nil => rfl
  | cons c rest ih =>
    simp only [applyTrace, List.foldl_cons, List.filter_cons]
    cases hc : Call.isCreateDevice c with
    | false =>
      rw [applyCall_of_not_device hc]
      simpa [applyTrace] using ih cat
    | true =>
      rw [if_pos rfl]
      simp only [List.foldl_cons]
      simpa [applyTrace] using ih (applyCall cat c)

/-- Claim C3: device creation is never deduplicated.  Every successful run
issues exactly one create-device call and exactly one device-relation create,
no existence probe ever targets a device, and replaying two successful runs
(same host) against the catalog leaves two distinct device entities with the
same name. -/
theorem c3_device_never_deduplicated (cfg : Config) (g g2 : Option GeoFix)
    (env env2 : Env) (cat : Catalog) (host : String)
    (h1 : (run cfg g env).res = .ok ())
    (h2 : (run cfg g2 env2).res = .ok ())
    (hh1 : env.hostnameResp = some host)
    (hh2 : env2.hostnameResp = some host) :
    ((run cfg g env).calls.filter Call.isCreateDevice).length = 1 ∧
    ((run cfg g env).calls.filter Call.isDeviceRelationCreate).length = 1 ∧
    (∀ c ∈ (run cfg g env).calls,
      Call.isCheckRelation c = true → Call.checkToType c = "ASSET") ∧
    (applyTrace cat ((run cfg g env).calls ++ (run cfg g2 env2).calls)).devices =
      cat.devices ++ [(cat.nextDeviceId, host), (cat.nextDeviceId + 1, host)] ∧
    cat.nextDeviceId ≠ cat.nextDeviceId + 1 := by
  obtain ⟨dpid, sa, dev, hdev, hf1, hf2⟩ := run_success_structure cfg g env h1
  obtain ⟨dpid2, sa2, dev2, hdev2, hf12, hf22⟩ := run_success_structure cfg g2 env2 h2
  refine ⟨by rw [hf1]; rfl, by rw [hf2]; rfl, ?_, ?_, by simp⟩
  · show AllCalls (run cfg g env) fun c =>
      Call.isCheckRelation c = true → Call.checkToType c = "ASSET"
    unfold run
    apply runCore_allCalls
    · exact AllCalls.of_validate_token (by intro h; cases h)
    · exact AllCalls.of_list_all_assets (by intro h; cases h)
    · intro n
      exact AllCalls.of_gap (by intro h; cases h)
    · intro n
      exact AllCalls.of_gdp (by intro h; cases h)
    · exact AllCalls.of_get_all_profiles (by intro h; cases h) (by intro h; cases h)
    · intro spid2 assets2
      exact AllCalls.of_locateOrCreateState (by intro h; cases h) (fun _ h => by cases h)
    · intro cid sid
      exact AllCalls.of_ensureStateLinked (fun _ => rfl) (by intro h; cases h)
    · intro n pid
      exact AllCalls.of_create_device (by intro h; cases h)
    · intro did aid
      exact AllCalls.of_assign_device (by intro h; cases h)
    · intro did
      exact AllCalls.of_get_credentials (by intro h; cases h)
    · intro tok
      exact AllCalls.of_send_telemetry (by intro h; cases h)
  · rw [applyTrace_eq_filter, List.filter_append, hf1, hf12]
    simp [applyTrace, applyCall, generate_device_name, hh1, hh2]

theorem c3_device_never_deduplicated_witness :
    (run cfgW none envScenario).res = .ok () ∧
    (run cfgW none envSecondRun).res = .ok () ∧
    ((run cfgW none envScenario).calls.filter Call.isCreateDevice).length = 1 ∧
    (applyTrace ⟨[], 0⟩
        ((run cfgW none envScenario).calls ++ (run cfgW none envSecondRun).calls)).devices =
      [(0, "host-1"), (1, "host-1")] := by
  have h := c3_device_never_deduplicated cfgW none none envScenario envSecondRun
    ⟨[], 0⟩ "host-1" (by decide) (by decide) rfl rfl
  exact ⟨by decide, by decide, h.1, h.2.2.2.1⟩

/-! ## Lemmas about the mirror categorizer -/

lemma categorize_loop_eq (cp sp dp : String) (assets : List Asset)
    (acc : List Asset × List Asset × List Asset) :
    assets.foldl
      (fun acc a =>
        match classify_asset cp sp dp a with
        | .country => (acc.1 ++ [a], acc.2.1, acc.2.2)
        | .state => (acc.1, acc.2.1 ++ [a], acc.2.2)
        | .other => (acc.1, acc.2.1, acc.2.2 ++ [a]))
      acc =
      (acc.1 ++ assets.filter (fun a => classify_asset cp sp dp a == .country),
       acc.2.1 ++ assets.filter (fun a => classify_asset cp sp dp a == .state),
       acc.2.2 ++ assets.filter (fun a => classify_asset cp sp dp a == .other)) := by
  induction assets generalizing acc with
  | nil => simp
  | cons a rest ih =>
    simp only [List.foldl_cons, List.filter_cons]
    cases h : classify_asset cp sp dp a <;>
      simp [h, ih, List.append_assoc]

lemma categorize_assets_eq_filters (assets : List Asset) (cpn spn dpn : String) :
    categorize_assets assets cpn spn dpn =
      (assets.filter
        (fun a => classify_asset (strLower cpn) (strLower spn) (strLower dpn) a == .country),
       assets.filter
        (fun a => classify_asset (strLower cpn) (strLower spn) (strLower dpn) a == .state),
       assets.filter
        (fun a => classify_asset (strLower cpn) (strLower spn) (strLower dpn) a == .other)) := by
  unfold categorize_assets
  simpa using categorize_loop_eq (strLower cpn) (strLower spn) (strLower dpn) assets ([], [], [])

lemma classify_filter_lengths (cp sp dp : String) (assets : List Asset) :
    (assets.filter (fun a => classify_asset cp sp dp a == .country)).length
      + (assets.filter (fun a => classify_asset cp sp dp a == .state)).length
      + (assets.filter (fun a => classify_asset cp sp dp a == .other)).length
      = assets.length := by
  induction assets with
  | nil => simp
  | cons a rest ih =>
    simp only [List.filter_cons]
    cases h : classify_asset cp sp dp a <;> simp [h] <;> omega

lemma categorize_lengths (assets : List Asset) (cpn spn dpn : String) :
    (categorize_assets assets cpn spn dpn).1.length
      + (categorize_assets assets cpn spn dpn).2.1.length
      + (categorize_assets assets cpn spn dpn).2.2.length = assets.length := by
  rw [categorize_assets_eq_filters]
  exact classify_filter_lengths (strLower cpn) (strLower spn) (strLower dpn) assets

/-- Claim C7: the mirror categorizer sends every asset to exactly one of the
Countries, States or Other buckets, trying exact lowercase profile-name
matches on the type, then keyword containment in the type, then the name
heuristic; on the concrete assets UK (type Country), LONDON (type State) and
sensor-1 (type Widget), with profile names country and state, it yields UK in
Countries, LONDON in States and sensor-1 in Other. -/
theorem c7_mirror_categorization :
    (∀ (assets : List Asset) (cpn spn dpn : String),
      categorize_assets assets cpn spn dpn =
        (assets.filter
          (fun a => classify_asset (strLower cpn) (strLower spn) (strLower dpn) a == .country),
         assets.filter
          (fun a => classify_asset (strLower cpn) (strLower spn) (strLower dpn) a == .state),
         assets.filter
          (fun a => classify_asset (strLower cpn) (strLower spn) (strLower dpn) a == .other)) ∧
      (categorize_assets assets cpn spn dpn).1.length
        + (categorize_assets assets cpn spn dpn).2.1.length
        + (categorize_assets assets cpn spn dpn).2.2.length = assets.length) ∧
    categorize_assets
        [⟨"UK", "Country", "a1"⟩, ⟨"LONDON", "State", "a2"⟩, ⟨"sensor-1", "Widget", "a3"⟩]
        "country" "state" "device" =
      ([⟨"UK", "Country", "a1"⟩], [⟨"LONDON", "State", "a2"⟩],
       [⟨"sensor-1", "Widget", "a3"⟩]) := by
  refine ⟨fun assets cpn spn dpn => ⟨categorize_assets_eq_filters assets cpn spn dpn,
    categorize_lengths assets cpn spn dpn⟩, ?_⟩
  decide

/-! ## Lemmas about the relational sink -/

lemma find?_append_of_none {α : Type} {p : α → Bool} {l1 l2 : List α}
    (h : l1.find? p = none) : (l1 ++ l2).find? p = l2.find? p := by
  induction l1 with
  | nil => simp
  | cons a t ih =>
    cases hpa : p a with
    | true => simp [List.find?_cons, hpa] at h
    | false =>
      simp only [List.find?_cons, hpa] at h
      simp [List.find?_cons, hpa, ih h]

/-- The db has a country row with the given name. -/
def hasCountryName (db : MirrorDB) (n : String) : Prop :=
  ∃ r ∈ db.country_asset, r.country_name = n

/-- The db has a state row with the given name. -/
def hasStateName (db : MirrorDB) (n : String) : Prop :=
  ∃ r ∈ db.state_asset, r.state_name = n

/-- The db has a device row with the given serial number. -/
def hasSerial (db : MirrorDB) (s : String) : Prop :=
  ∃ r ∈ db.devices, r.serial_number = s

lemma upsertCountry_state_eq (db : MirrorDB) (n : String) :
    ((upsertCountry db n).1).state_asset = db.state_asset := by
  unfold upsertCountry
  cases db.country_asset.find? (fun r => r.country_name == n) <;> rfl

lemma upsertCountry_devices_eq (db : MirrorDB) (n : String) :
    ((upsertCountry db n).1).devices = db.devices := by
  unfold upsertCountry
  cases db.country_asset.find? (fun r => r.country_name == n) <;> rfl

lemma mem_upsertCountry {db : MirrorDB} {n : String} {r : CountryRow}
    (h : r ∈ db.country_asset) : r ∈ ((upsertCountry db n).1).country_asset := by
  unfold upsertCountry
  cases db.country_asset.find? (fun q => q.country_name == n) <;> simp [h]

lemma upsertCountry_hasName (db : MirrorDB) (n : String) :
    hasCountryName (upsertCountry db n).1 n := by
  unfold upsertCountry hasCountryName
  cases hf : db.country_asset.find? (fun r => r.country_name == n) with
  | none => exact ⟨⟨db.next_id, n⟩, by simp, rfl⟩
  | some r =>
    refine ⟨r, List.mem_of_find?_eq_some hf, ?_⟩
    simpa using List.find?_some hf

lemma upsertState_country_eq (db : MirrorDB) (n : String) (c : Nat) :
    ((upsertState db n c).1).country_asset = db.country_asset := by
  unfold upsertState
  cases db.state_asset.find? (fun r => r.state_name == n && r.country_id == c) <;> rfl

lemma upsertState_devices_eq (db : MirrorDB) (n : String) (c : Nat) :
    ((upsertState db n c).1).devices = db.devices := by
  unfold upsertState
  cases db.state_asset.find? (fun r => r.state_name == n && r.country_id == c) <;> rfl

lemma mem_upsertState {db : MirrorDB} {n : String} {c : Nat} {r : StateRow}
    (h : r ∈ db.state_asset) : r ∈ ((upsertState db n c).1).state_asset := by
  unfold upsertState
  cases db.state_asset.find? (fun q => q.state_name == n && q.country_id == c) <;> simp [h]

lemma upsertState_hasName (db : MirrorDB) (n : String) (c : Nat) :
    hasStateName (upsertState db n c).1 n := by
  unfold upsertState hasStateName
  cases hf : db.state_asset.find? (fun r => r.state_name == n && r.country_id == c) with
  | none => exact ⟨⟨db.next_id, n, c⟩, by simp, rfl⟩
  | some r =>
    refine ⟨r, List.mem_of_find?_eq_some hf, ?_⟩
    have := List.find?_some hf
    simp only [Bool.and_eq_true, beq_iff_eq] at this
    exact this.1

lemma upsertDevice_country_eq (db : MirrorDB) (nm ser fw : String) (la lo : Rat)
    (sid cid : Nat) :
    ((upsertDevice db nm ser fw la lo sid cid).1).country_asset = db.country_asset := by
  unfold upsertDevice
  cases db.devices.find? (fun r => r.serial_number == ser) <;> rfl

lemma upsertDevice_state_eq (db : MirrorDB) (nm ser fw : String) (la lo : Rat)
    (sid cid : Nat) :
    ((upsertDevice db nm ser fw la lo sid cid).1).state_asset = db.state_asset := by
  unfold upsertDevice
  cases db.devices.find? (fun r => r.serial_number == ser) <;> rfl

lemma hasSerial_upsertDevice {db : MirrorDB} {s : String} (nm ser fw : String)
    (la lo : Rat) (sid cid : Nat) (h : hasSerial db s) :
    hasSerial (upsertDevice db nm ser fw la lo sid cid).1 s := by
  obtain ⟨r, hr, hrs⟩ := h
  unfold upsertDevice hasSerial
  cases db.devices.find? (fun q => q.serial_number == ser) with
  | none => exact ⟨r, by simp [hr], hrs⟩
  | some q0 =>
    refine ⟨if (r.serial_number == ser) = true then
        { r with device_name := nm, firmware_version := fw,
                 location_lat := la, location_lon := lo } else r, ?_, ?_⟩
    · simp only []
      refine List.mem_map.mpr ⟨r, hr, ?_⟩
      by_cases hq : (r.serial_number == ser) = true <;> simp [hq]
    · split <;> simp [hrs]

lemma upsertDevice_hasSerial (db : MirrorDB) (nm ser fw : String) (la lo : Rat)
    (sid cid : Nat) :
    hasSerial (upsertDevice db nm ser fw la lo sid cid).1 ser := by
  cases hf : db.devices.find? (fun r => r.serial_number == ser) with
  | some q0 =>
    exact hasSerial_upsertDevice nm ser fw la lo sid cid
      ⟨q0, List.mem_of_find?_eq_some hf, by simpa using List.find?_some hf⟩
  | none =>
    unfold upsertDevice hasSerial
    rw [hf]
    exact ⟨⟨db.next_id, nm, ser, fw, la, lo, sid, cid⟩, by simp, rfl⟩

/-! ## Stability of the fallback state/country assignment (C10) -/

lemma upsertCountry_found (d2 : MirrorDB) (n : String) (row : CountryRow)
    (h2 : d2.country_asset.find? (fun r => r.country_name == n) = some row) :
    upsertCountry d2 n = (d2, row.country_id) := by
  unfold upsertCountry
  rw [h2]

lemma upsertState_found (d2 : MirrorDB) (n : String) (c : Nat) (row : StateRow)
    (h2 : d2.state_asset.find? (fun r => r.state_name == n && r.country_id == c) = some row) :
    upsertState d2 n c = (d2, row.state_id) := by
  unfold upsertState
  rw [h2]

lemma upsertCountry_find_result (db : MirrorDB) (n : String) :
    ∃ row, ((upsertCountry db n).1).country_asset.find? (fun r => r.country_name == n)
        = some row ∧ row.country_id = (upsertCountry db n).2 := by
  unfold upsertCountry
  cases hf : db.country_asset.find? (fun r => r.country_name == n) with
  | some r => exact ⟨r, hf, rfl⟩
  | none =>
    refine ⟨⟨db.next_id, n⟩, ?_, rfl⟩
    rw [find?_append_of_none hf]
    simp

lemma upsertState_find_result (db : MirrorDB) (n : String) (c : Nat) :
    ∃ row, ((upsertState db n c).1).state_asset.find?
        (fun r => r.state_name == n && r.country_id == c) = some row ∧
      row.state_id = (upsertState db n c).2 := by
  unfold upsertState
  cases hf : db.state_asset.find? (fun r => r.state_name == n && r.country_id == c) with
  | some r => exact ⟨r, hf, rfl⟩
  | none =>
    refine ⟨⟨db.next_id, n, c⟩, ?_, rfl⟩
    rw [find?_append_of_none hf]
    simp

/-- After one device iteration, re-running the fallback assignment on the new
draft returns the same state/country ids and changes nothing. -/
lemma assignStateCountry_step_stable (draft : MirrorDB)
    (smap : List (String × StateMapEntry)) (cmap : List (String × CountryMapEntry))
    (nm ser fw : String) (la lo : Rat) :
    assignStateCountry
        ((upsertDevice (assignStateCountry draft smap cmap).1 nm ser fw la lo
          (assignStateCountry draft smap cmap).2.1
          (assignStateCountry draft smap cmap).2.2).1) smap cmap =
      ((upsertDevice (assignStateCountry draft smap cmap).1 nm ser fw la lo
          (assignStateCountry draft smap cmap).2.1
          (assignStateCountry draft smap cmap).2.2).1,
        (assignStateCountry draft smap cmap).2.1,
        (assignStateCountry draft smap cmap).2.2) := by
  cases smap with
  | cons e rest => rfl
  | nil =>
    cases cmap with
    | cons c crest =>
      obtain ⟨row, hfind, hid⟩ := upsertState_find_result draft "DEFAULT_STATE" c.2.db_id
      have htab : ((upsertDevice (assignStateCountry draft [] (c :: crest)).1 nm ser fw la lo
          (assignStateCountry draft [] (c :: crest)).2.1
          (assignStateCountry draft [] (c :: crest)).2.2).1).state_asset =
          ((upsertState draft "DEFAULT_STATE" c.2.db_id).1).state_asset := by
        rw [upsertDevice_state_eq]
        rfl
      have hfound := upsertState_found _ "DEFAULT_STATE" c.2.db_id row (htab ▸ hfind)
      show (let p := upsertState _ "DEFAULT_STATE" c.2.db_id; (p.1, p.2, c.2.db_id)) = _
      rw [hfound]
      simp [assignStateCountry, hid]
    | nil =>
      obtain ⟨rowc, hfindc, hidc⟩ := upsertCountry_find_result draft "DEFAULT_COUNTRY"
      obtain ⟨rows, hfinds, hids⟩ := upsertState_find_result
        (upsertCountry draft "DEFAULT_COUNTRY").1 "DEFAULT_STATE"
        (upsertCountry draft "DEFAULT_COUNTRY").2
      have htabc : ((upsertDevice (assignStateCountry draft [] []).1 nm ser fw la lo
          (assignStateCountry draft [] []).2.1
          (assignStateCountry draft [] []).2.2).1).country_asset =
          ((upsertCountry draft "DEFAULT_COUNTRY").1).country_asset := by
        rw [upsertDevice_country_eq]
        show ((upsertState (upsertCountry draft "DEFAULT_COUNTRY").1 "DEFAULT_STATE"
          (upsertCountry draft "DEFAULT_COUNTRY").2).1).country_asset = _
        rw [upsertState_country_eq]
      have htabs : ((upsertDevice (assignStateCountry draft [] []).1 nm ser fw la lo
          (assignStateCountry draft [] []).2.1
          (assignStateCountry draft [] []).2.2).1).state_asset =
          ((upsertState (upsertCountry draft "DEFAULT_COUNTRY").1 "DEFAULT_STATE"
            (upsertCountry draft "DEFAULT_COUNTRY").2).1).state_asset := by
        rw [upsertDevice_state_eq]
        rfl
      have hfoundc := upsertCountry_found _ "DEFAULT_COUNTRY" rowc (htabc ▸ hfindc)
      show (let p := upsertCountry _ "DEFAULT_COUNTRY";
        let q := upsertState p.1 "DEFAULT_STATE" p.2; (q.1, q.2, p.2)) = _
      rw [hfoundc]
      simp only [hidc]
      have hfounds := upsertState_found _ "DEFAULT_STATE"
        (upsertCountry draft "DEFAULT_COUNTRY").2 rows (htabs ▸ hfinds)
      rw [hfounds]
      simp [assignStateCountry, hids, hidc]

lemma saveAssetDevicesLoop_ops (menv : MirrorEnv)
    (smap : List (String × StateMapEntry)) (cmap : List (String × CountryMapEntry))
    (fails : Nat → Bool) (vs vc : Nat) (devs : List Asset) :
    ∀ (i : Nat) (draft : MirrorDB) (ops : List DeviceInsertOp),
      (∀ op ∈ ops, (op.state_id, op.country_id) = (vs, vc)) →
      (assignStateCountry draft smap cmap).2 = (vs, vc) →
      ∀ op ∈ (saveAssetDevicesLoop menv smap cmap fails i draft ops devs).2.1,
        (op.state_id, op.country_id) = (vs, vc) := by
  induction devs with
  | nil =>
    intro i draft ops hops _ op hop
    exact hops op (by simpa [saveAssetDevicesLoop] using hop)
  | cons dev rest ih =>
    intro i draft ops hops hstable op hop
    by_cases hf : fails i
    · exact hops op (by simpa [saveAssetDevicesLoop, hf] using hop)
    · simp only [saveAssetDevicesLoop, hf, if_neg, Bool.false_eq_true,
        not_false_eq_true] at hop
      refine ih (i + 1) _ _ ?_ ?_ op hop
      · intro op2 hop2
        rcases List.mem_append.mp hop2 with hh | hh
        · exact hops op2 hh
        · simp only [List.mem_singleton] at hh
          subst hh
          simpa using hstable
      · have hstep := assignStateCountry_step_stable draft smap cmap dev.name
          (assetSerial dev) "1.0.0" (coordsOrZero (menv.assetAttrs dev.id)).1
          (coordsOrZero (menv.assetAttrs dev.id)).2
        rw [hstep]
        simpa using hstable

lemma saveTbDevicesLoop_ops (menv : MirrorEnv)
    (smap : List (String × StateMapEntry)) (cmap : List (String × CountryMapEntry))
    (fails : Nat → Bool) (vs vc : Nat) (tds : List TbDevice) :
    ∀ (i : Nat) (draft : MirrorDB) (ops : List DeviceInsertOp),
      (∀ op ∈ ops, (op.state_id, op.country_id) = (vs, vc)) →
      (assignStateCountry draft smap cmap).2 = (vs, vc) →
      ∀ op ∈ (saveTbDevicesLoop menv smap cmap fails i draft ops tds).2.1,
        (op.state_id, op.country_id) = (vs, vc) := by
  induction tds with
  | nil =>
    intro i draft ops hops _ op hop
    exact hops op (by simpa [saveTbDevicesLoop] using hop)
  | cons dev rest ih =>
    intro i draft ops hops hstable op hop
    by_cases hf : fails i
    · exact hops op (by simpa [saveTbDevicesLoop, hf] using hop)
    · simp only [saveTbDevicesLoop, hf, if_neg, Bool.false_eq_true,
        not_false_eq_true] at hop
      refine ih (i + 1) _ _ ?_ ?_ op hop
      · intro op2 hop2
        rcases List.mem_append.mp hop2 with hh | hh
        · exact hops op2 hh
        · simp only [List.mem_singleton] at hh
          subst hh
          simpa using hstable
      · have hstep := assignStateCountry_step_stable draft smap cmap dev.name
          (tbSerial dev) (menv.deviceAttrs dev.id).2.2
          (coordsOrZero ((menv.deviceAttrs dev.id).1, (menv.deviceAttrs dev.id).2.1)).1
          (coordsOrZero ((menv.deviceAttrs dev.id).1, (menv.deviceAttrs dev.id).2.1)).2
        rw [hstep]
        simpa using hstable

/-- Claim C10: every device row either mirror save executes is assigned the
state and country ids of the first entry of the state mapping when that
mapping is non-empty; with an empty state mapping it falls back to the first
mapped country together with an upserted DEFAULT_STATE row, and with both
mappings empty to freshly upserted DEFAULT_COUNTRY and DEFAULT_STATE rows.
The assignment is a function of the mappings and the entry database alone —
the catalog's device-to-state relations are not inputs to it. -/
theorem c10_device_rows_first_mapping_assignment
    (db : MirrorDB) (devs : List Asset) (tds : List TbDevice)
    (smap : List (String × StateMapEntry)) (cmap : List (String × CountryMapEntry))
    (menv : MirrorEnv) (adF tdF : Nat → Bool) :
    (∀ op ∈ (save_asset_devices_to_db db devs smap cmap menv adF).2,
      (op.state_id, op.country_id) = (assignStateCountry db smap cmap).2) ∧
    (∀ op ∈ (save_thingsboard_devices_to_db db tds smap cmap menv tdF).2,
      (op.state_id, op.country_id) = (assignStateCountry db smap cmap).2) ∧
    (∀ e rest, smap = e :: rest →
      (assignStateCountry db smap cmap).2 = (e.2.db_id, e.2.country_id)) ∧
    (∀ c crest, smap = [] → cmap = c :: crest →
      (assignStateCountry db smap cmap).2 =
        ((upsertState db "DEFAULT_STATE" c.2.db_id).2, c.2.db_id)) ∧
    (smap = [] → cmap = [] →
      (assignStateCountry db smap cmap).2 =
        ((upsertState (upsertCountry db "DEFAULT_COUNTRY").1 "DEFAULT_STATE"
            (upsertCountry db "DEFAULT_COUNTRY").2).2,
          (upsertCountry db "DEFAULT_COUNTRY").2)) := by
  refine ⟨?_, ?_, ?_, ?_, ?_⟩
  · intro op hop
    exact saveAssetDevicesLoop_ops menv smap cmap adF _ _ devs 0 db []
      (by intro op2 hop2; simp at hop2) rfl op hop
  · intro op hop
    exact saveTbDevicesLoop_ops menv smap cmap tdF _ _ tds 0 db []
      (by intro op2 hop2; simp at hop2) rfl op hop
  · intro e rest he
    subst he
    rfl
  · intro c crest hs hc
    subst hs
    subst hc
    rfl
  · intro hs hc
    subst hs
    subst hc
    rfl

/-! ## Per-kind commit and rollback (C8) -/

lemma hasCountryName_upsertCountry {db : MirrorDB} {m : String} (n : String)
    (h : hasCountryName db m) : hasCountryName (upsertCountry db n).1 m := by
  obtain ⟨r, hr, e⟩ := h
  exact ⟨r, mem_upsertCountry hr, e⟩

lemma hasCountryName_upsertState {db : MirrorDB} {m : String} (n : String) (c : Nat)
    (h : hasCountryName db m) : hasCountryName (upsertState db n c).1 m := by
  unfold hasCountryName at *
  rw [upsertState_country_eq]
  exact h

lemma hasCountryName_upsertDevice {db : MirrorDB} {m : String} (nm ser fw : String)
    (la lo : Rat) (sid cid : Nat) (h : hasCountryName db m) :
    hasCountryName (upsertDevice db nm ser fw la lo sid cid).1 m := by
  unfold hasCountryName at *
  rw [upsertDevice_country_eq]
  exact h

lemma hasStateName_upsertCountry {db : MirrorDB} {m : String} (n : String)
    (h : hasStateName db m) : hasStateName (upsertCountry db n).1 m := by
  unfold hasStateName at *
  rw [upsertCountry_state_eq]
  exact h

lemma hasStateName_upsertState {db : MirrorDB} {m : String} (n : String) (c : Nat)
    (h : hasStateName db m) : hasStateName (upsertState db n c).1 m := by
  obtain ⟨r, hr, e⟩ := h
  exact ⟨r, mem_upsertState hr, e⟩

lemma hasStateName_upsertDevice {db : MirrorDB} {m : String} (nm ser fw : String)
    (la lo : Rat) (sid cid : Nat) (h : hasStateName db m) :
    hasStateName (upsertDevice db nm ser fw la lo sid cid).1 m := by
  unfold hasStateName at *
  rw [upsertDevice_state_eq]
  exact h

lemma hasCountryName_assign {draft : MirrorDB} {m : String}
    (smap : List (String × StateMapEntry)) (cmap : List (String × CountryMapEntry))
    (h : hasCountryName draft m) :
    hasCountryName (assignStateCountry draft smap cmap).1 m := by
  cases smap with
  | cons e rest => exact h
  | nil =>
    cases cmap with
    | cons c crest => exact hasCountryName_upsertState _ _ h
    | nil => exact hasCountryName_upsertState _ _ (hasCountryName_upsertCountry _ h)

lemma hasStateName_assign {draft : MirrorDB} {m : String}
    (smap : List (String × StateMapEntry)) (cmap : List (String × CountryMapEntry))
    (h : hasStateName draft m) :
    hasStateName (assignStateCountry draft smap cmap).1 m := by
  cases smap with
  | cons e rest => exact h
  | nil =>
    cases cmap with
    | cons c crest => exact hasStateName_upsertState _ _ h
    | nil => exact hasStateName_upsertState _ _ (hasStateName_upsertCountry _ h)

/-! Rollback: a raising row anywhere in the batch aborts the loop. -/

lemma saveCountriesLoop_fail (fails : Nat → Bool) (rows : List Asset) :
    ∀ (i : Nat) (draft : MirrorDB) (mapping : List (String × CountryMapEntry)),
      (∃ j, j < rows.length ∧ fails (i + j) = true) →
      (saveCountriesLoop fails i draft mapping rows).2.2 = false := by
  induction rows with
  | nil =>
    rintro i d m ⟨j, hj, _⟩
    exact absurd hj (by simp)
  | cons c rest ih =>
    rintro i d m ⟨j, hj, hf⟩
    by_cases h0 : fails i
    · simp [saveCountriesLoop, h0]
    · have hj0 : j ≠ 0 := by
        rintro rfl
        rw [Nat.add_zero] at hf
        exact h0 (by simp [hf])
      obtain ⟨k, rfl⟩ := Nat.exists_eq_succ_of_ne_zero hj0
      simp only [saveCountriesLoop, h0, Bool.false_eq_true, if_neg, not_false_eq_true]
      refine ih (i + 1) _ _ ⟨k, by simpa using hj, ?_⟩
      have harith : i + (k + 1) = i + 1 + k := by omega
      rwa [harith] at hf

lemma saveCountriesLoop_ok (fails : Nat → Bool) (rows : List Asset) :
    ∀ (i : Nat) (draft : MirrorDB) (mapping : List (String × CountryMapEntry)),
      (∀ j, j < rows.length → fails (i + j) = false) →
      (saveCountriesLoop fails i draft mapping rows).2.2 = true := by
  induction rows with
  | nil =>
    intro i d m _
    rfl
  | cons c rest ih =>
    intro i d m hok
    have h0 : fails i = false := by simpa using hok 0 (by simp)
    simp only [saveCountriesLoop, h0, Bool.false_eq_true, if_neg, not_false_eq_true]
    refine ih (i + 1) _ _ fun j hj => ?_
    have harith : i + 1 + j = i + (j + 1) := by omega
    rw [harith]
    exact hok (j + 1) (by simpa using hj)

lemma saveCountriesLoop_preserves (fails : Nat → Bool) (rows : List Asset) (n : String) :
    ∀ (i : Nat) (draft : MirrorDB) (mapping : List (String × CountryMapEntry)),
      hasCountryName draft n →
      hasCountryName (saveCountriesLoop fails i draft mapping rows).1 n := by
  induction rows with
  | nil =>
    intro i d m h
    exact h
  | cons c rest ih =>
    intro i d m h
    by_cases h0 : fails i
    · simpa [saveCountriesLoop, h0] using h
    · simp only [saveCountriesLoop, h0, Bool.false_eq_true, if_neg, not_false_eq_true]
      exact ih (i + 1) _ _ (hasCountryName_upsertCountry _ h)

lemma saveCountriesLoop_present (fails : Nat → Bool) (rows : List Asset) :
    ∀ (i : Nat) (draft : MirrorDB) (mapping : List (String × CountryMapEntry)),
      (∀ j, j < rows.length → fails (i + j) = false) →
      ∀ c ∈ rows, hasCountryName (saveCountriesLoop fails i draft mapping rows).1 c.name := by
  induction rows with
  | nil =>
    intro i d m _ c hc
    exact absurd hc (by simp)
  | cons c0 rest ih =>
    intro i d m hok c hc
    have h0 : fails i = false := by simpa using hok 0 (by simp)
    simp only [saveCountriesLoop, h0, Bool.false_eq_true, if_neg, not_false_eq_true]
    have hshift : ∀ j, j < rest.length → fails (i + 1 + j) = false := fun j hj => by
      have harith : i + 1 + j = i + (j + 1) := by omega
      rw [harith]
      exact hok (j + 1) (by simpa using hj)
    rcases List.mem_cons.mp hc with rfl | hc2
    · exact saveCountriesLoop_preserves fails rest c.name (i + 1) _ _
        (upsertCountry_hasName d c.name)
    · exact ih (i + 1) _ _ hshift c hc2

lemma save_countries_rollback (db : MirrorDB) (countries : List Asset) (cF : Nat → Bool)
    (h : ∃ j, j < countries.length ∧ cF j = true) :
    (save_countries_to_db db countries cF).1 = db := by
  simp only [save_countries_to_db]
  rw [saveCountriesLoop_fail cF countries 0 db [] (by simpa using h)]
  simp

lemma save_countries_commit (db : MirrorDB) (countries : List Asset) (cF : Nat → Bool)
    (h : ∀ j, j < countries.length → cF j = false) :
    ∀ c ∈ countries, hasCountryName (save_countries_to_db db countries cF).1 c.name := by
  intro c hc
  simp only [save_countries_to_db,
    saveCountriesLoop_ok cF countries 0 db [] (by simpa using h), if_true]
  exact saveCountriesLoop_present cF countries 0 db [] (by simpa using h) c hc

lemma save_countries_preserves (db : MirrorDB) (countries : List Asset) (cF : Nat → Bool)
    (n : String) (h : hasCountryName db n) :
    hasCountryName (save_countries_to_db db countries cF).1 n := by
  unfold save_countries_to_db
  dsimp only
  split
  · exact saveCountriesLoop_preserves cF countries n 0 db [] h
  · exact h

lemma assign_devices_eq (draft : MirrorDB) (smap : List (String × StateMapEntry))
    (cmap : List (String × CountryMapEntry)) :
    (assignStateCountry draft smap cmap).1.devices = draft.devices := by
  cases smap with
  | cons e rest => rfl
  | nil =>
    cases cmap with
    | cons c crest => exact upsertState_devices_eq _ _ _
    | nil =>
      show ((upsertState (upsertCountry draft "DEFAULT_COUNTRY").1 "DEFAULT_STATE"
        (upsertCountry draft "DEFAULT_COUNTRY").2).1).devices = _
      rw [upsertState_devices_eq, upsertCountry_devices_eq]

lemma hasSerial_assign {draft : MirrorDB} {m : String}
    (smap : List (String × StateMapEntry)) (cmap : List (String × CountryMapEntry))
    (h : hasSerial draft m) : hasSerial (assignStateCountry draft smap cmap).1 m := by
  unfold hasSerial at *
  rw [assign_devices_eq]
  exact h

/-! The state batch. -/

lemma saveStatesLoop_fail (cmap : List (String × CountryMapEntry))
    (rels : List (String × String)) (fails : Nat → Bool) (rows : List Asset) :
    ∀ (i : Nat) (draft : MirrorDB) (mapping : List (String × StateMapEntry)),
      (∃ j, j < rows.length ∧ fails (i + j) = true) →
      (saveStatesLoop cmap rels fails i draft mapping rows).2.2 = false := by
  induction rows with
  | nil =>
    rintro i d m ⟨j, hj, _⟩
    exact absurd hj (by simp)
  | cons c rest ih =>
    rintro i d m ⟨j, hj, hf⟩
    by_cases h0 : fails i
    · simp [saveStatesLoop, h0]
    · have hj0 : j ≠ 0 := by
        rintro rfl
        rw [Nat.add_zero] at hf
        exact h0 (by simp [hf])
      obtain ⟨k, rfl⟩ := Nat.exists_eq_succ_of_ne_zero hj0
      simp only [saveStatesLoop, h0, Bool.false_eq_true, if_neg, not_false_eq_true]
      refine ih (i + 1) _ _ ⟨k, by simpa using hj, ?_⟩
      have harith : i + (k + 1) = i + 1 + k := by omega
      rwa [harith] at hf

lemma saveStatesLoop_ok (cmap : List (String × CountryMapEntry))
    (rels : List (String × String)) (fails : Nat → Bool) (rows : List Asset) :
    ∀ (i : Nat) (draft : MirrorDB) (mapping : List (String × StateMapEntry)),
      (∀ j, j < rows.length → fails (i + j) = false) →
      (saveStatesLoop cmap rels fails i draft mapping rows).2.2 = true := by
  induction rows with
  | nil =>
    intro i d m _
    rfl
  | cons c rest ih =>
    intro i d m hok
    have h0 : fails i = false := by simpa using hok 0 (by simp)
    simp only [saveStatesLoop, h0, Bool.false_eq_true, if_neg, not_false_eq_true]
    refine ih (i + 1) _ _ fun j hj => ?_
    have harith : i + 1 + j = i + (j + 1) := by omega
    rw [harith]
    exact hok (j + 1) (by simpa using hj)

lemma saveStatesLoop_preserves_state (cmap : List (String × CountryMapEntry))
    (rels : List (String × String)) (fails : Nat → Bool) (rows : List Asset) (n : String) :
    ∀ (i : Nat) (draft : MirrorDB) (mapping : List (String × StateMapEntry)),
      hasStateName draft n →
      hasStateName (saveStatesLoop cmap rels fails i draft mapping rows).1 n := by
  induction rows with
  | nil =>
    intro i d m h
    exact h
  | cons s rest ih =>
    intro i d m h
    by_cases h0 : fails i
    · simpa [saveStatesLoop, h0] using h
    · simp only [saveStatesLoop, h0, Bool.false_eq_true, if_neg, not_false_eq_true]
      apply ih (i + 1)
      apply hasStateName_upsertState
      cases hrel : (match lookupKey rels s.id with
        | some country_tb_id => (lookupKey cmap country_tb_id).map CountryMapEntry.db_id
        | none => none : Option Nat) with
      | some cid => exact h
      | none =>
        cases cmap with
        | cons e crest => exact h
        | nil => exact hasStateName_upsertCountry _ h

lemma saveStatesLoop_preserves_country (cmap : List (String × CountryMapEntry))
    (rels : List (String × String)) (fails : Nat → Bool) (rows : List Asset) (n : String) :
    ∀ (i : Nat) (draft : MirrorDB) (mapping : List (String × StateMapEntry)),
      hasCountryName draft n →
      hasCountryName (saveStatesLoop cmap rels fails i draft mapping rows).1 n := by
  induction rows with
  | nil =>
    intro i d m h
    exact h
  | cons s rest ih =>
    intro i d m h
    by_cases h0 : fails i
    · simpa [saveStatesLoop, h0] using h
    · simp only [saveStatesLoop, h0, Bool.false_eq_true, if_neg, not_false_eq_true]
      apply ih (i + 1)
      apply hasCountryName_upsertState
      cases hrel : (match lookupKey rels s.id with
        | some country_tb_id => (lookupKey cmap country_tb_id).map CountryMapEntry.db_id
        | none => none : Option Nat) with
      | some cid => exact h
      | none =>
        cases cmap with
        | cons e crest => exact h
        | nil => exact hasCountryName_upsertCountry _ h

lemma saveStatesLoop_present (cmap : List (String × CountryMapEntry))
    (rels : List (String × String)) (fails : Nat → Bool) (rows : List Asset) :
    ∀ (i : Nat) (draft : MirrorDB) (mapping : List (String × StateMapEntry)),
      (∀ j, j < rows.length → fails (i + j) = false) →
      ∀ s ∈ rows, hasStateName (saveStatesLoop cmap rels fails i draft mapping rows).1 s.name := by
  induction rows with
  | nil =>
    intro i d m _ s hs
    exact absurd hs (by simp)
  | cons s0 rest ih =>
    intro i d m hok s hs
    have h0 : fails i = false := by simpa using hok 0 (by simp)
    simp only [saveStatesLoop, h0, Bool.false_eq_true, if_neg, not_false_eq_true]
    have hshift : ∀ j, j < rest.length → fails (i + 1 + j) = false := fun j hj => by
      have harith : i + 1 + j = i + (j + 1) := by omega
      rw [harith]
      exact hok (j + 1) (by simpa using hj)
    rcases List.mem_cons.mp hs with rfl | hs2
    · exact saveStatesLoop_preserves_state cmap rels fails rest s.name (i + 1) _ _
        (upsertState_hasName _ s.name _)
    · exact ih (i + 1) _ _ hshift s hs2

lemma save_states_rollback (db : MirrorDB) (states : List Asset)
    (cmap : List (String × CountryMapEntry)) (rels : List (String × String))
    (sF : Nat → Bool) (h : ∃ j, j < states.length ∧ sF j = true) :
    (save_states_to_db db states cmap rels sF).1 = db := by
  simp only [save_states_to_db]
  rw [saveStatesLoop_fail cmap rels sF states 0 db [] (by simpa using h)]
  simp

lemma save_states_commit (db : MirrorDB) (states : List Asset)
    (cmap : List (String × CountryMapEntry)) (rels : List (String × String))
    (sF : Nat → Bool) (h : ∀ j, j < states.length → sF j = false) :
    ∀ s ∈ states, hasStateName (save_states_to_db db states cmap rels sF).1 s.name := by
  intro s hs
  simp only [save_states_to_db,
    saveStatesLoop_ok cmap rels sF states 0 db [] (by simpa using h), if_true]
  exact saveStatesLoop_present cmap rels sF states 0 db [] (by simpa using h) s hs

lemma save_states_preserves_country (db : MirrorDB) (states : List Asset)
    (cmap : List (String × CountryMapEntry)) (rels : List (String × String))
    (sF : Nat → Bool) (n : String) (h : hasCountryName db n) :
    hasCountryName (save_states_to_db db states cmap rels sF).1 n := by
  unfold save_states_to_db
  dsimp only
  split
  · exact saveStatesLoop_preserves_country cmap rels sF states n 0 db [] h
  · exact h

/-! The device batches. -/

lemma saveAssetDevicesLoop_fail (menv : MirrorEnv) (smap : List (String × StateMapEntry))
    (cmap : List (String × CountryMapEntry)) (fails : Nat → Bool) (rows : List Asset) :
    ∀ (i : Nat) (draft : MirrorDB) (ops : List DeviceInsertOp),
      (∃ j, j < rows.length ∧ fails (i + j) = true) →
      (saveAssetDevicesLoop menv smap cmap fails i draft ops rows).2.2 = false := by
  induction rows with
  | nil =>
    rintro i d m ⟨j, hj, _⟩
    exact absurd hj (by simp)
  | cons c rest ih =>
    rintro i d m ⟨j, hj, hf⟩
    by_cases h0 : fails i
    · simp [saveAssetDevicesLoop, h0]
    · have hj0 : j ≠ 0 := by
        rintro rfl
        rw [Nat.add_zero] at hf
        exact h0 (by simp [hf])
      obtain ⟨k, rfl⟩ := Nat.exists_eq_succ_of_ne_zero hj0
      simp only [saveAssetDevicesLoop, h0, Bool.false_eq_true, if_neg, not_false_eq_true]
      refine ih (i + 1) _ _ ⟨k, by simpa using hj, ?_⟩
      have harith : i + (k + 1) = i + 1 + k := by omega
      rwa [harith] at hf

lemma saveAssetDevicesLoop_ok (menv : MirrorEnv) (smap : List (String × StateMapEntry))
    (cmap : List (String × CountryMapEntry)) (fails : Nat → Bool) (rows : List Asset) :
    ∀ (i : Nat) (draft : MirrorDB) (ops : List DeviceInsertOp),
      (∀ j, j < rows.length → fails (i + j) = false) →
      (saveAssetDevicesLoop menv smap cmap fails i draft ops rows).2.2 = true := by
  induction rows with
  | nil =>
    intro i d m _
    rfl
  | cons c rest ih =>
    intro i d m hok
    have h0 : fails i = false := by simpa using hok 0 (by simp)
    simp only [saveAssetDevicesLoop, h0, Bool.false_eq_true, if_neg, not_false_eq_true]
    refine ih (i + 1) _ _ fun j hj => ?_
    have harith : i + 1 + j = i + (j + 1) := by omega
    rw [harith]
    exact hok (j + 1) (by simpa using hj)

lemma saveAssetDevicesLoop_preserves_serial (menv : MirrorEnv)
    (smap : List (String × StateMapEntry)) (cmap : List (String × CountryMapEntry))
    (fails : Nat → Bool) (rows : List Asset) (n : String) :
    ∀ (i : Nat) (draft : MirrorDB) (ops : List DeviceInsertOp),
      hasSerial draft n →
      hasSerial (saveAssetDevicesLoop menv smap cmap fails i draft ops rows).1 n := by
  induction rows with
  | nil =>
    intro i d m h
    exact h
  | cons c rest ih =>
    intro i d m h
    by_cases h0 : fails i
    · simpa [saveAssetDevicesLoop, h0] using h
    · simp only [saveAssetDevicesLoop, h0, Bool.false_eq_true, if_neg, not_false_eq_true]
      exact ih (i + 1) _ _
        (hasSerial_upsertDevice _ _ _ _ _ _ _ (hasSerial_assign smap cmap h))

lemma saveAssetDevicesLoop_preserves_country (menv : MirrorEnv)
    (smap : List (String × StateMapEntry)) (cmap : List (String × CountryMapEntry))
    (fails : Nat → Bool) (rows : List Asset) (n : String) :
    ∀ (i : Nat) (draft : MirrorDB) (ops : List DeviceInsertOp),
      hasCountryName draft n →
      hasCountryName (saveAssetDevicesLoop menv smap cmap fails i draft ops rows).1 n := by
  induction rows with
  | nil =>
    intro i d m h
    exact h
  | cons c rest ih =>
    intro i d m h
    by_cases h0 : fails i
    · simpa [saveAssetDevicesLoop, h0] using h
    · simp only [saveAssetDevicesLoop, h0, Bool.false_eq_true, if_neg, not_false_eq_true]
      exact ih (i + 1) _ _
        (hasCountryName_upsertDevice _ _ _ _ _ _ _ (hasCountryName_assign smap cmap h))

lemma saveAssetDevicesLoop_preserves_state (menv : MirrorEnv)
    (smap : List (String × StateMapEntry)) (cmap : List (String × CountryMapEntry))
    (fails : Nat → Bool) (rows : List Asset) (n : String) :
    ∀ (i : Nat) (draft : MirrorDB) (ops : List DeviceInsertOp),
      hasStateName draft n →
      hasStateName (saveAssetDevicesLoop menv smap cmap fails i draft ops rows).1 n := by
  induction rows with
  | nil =>
    intro i d m h
    exact h
  | cons c rest ih =>
    intro i d m h
    by_cases h0 : fails i
    · simpa [saveAssetDevicesLoop, h0] using h
    · simp only [saveAssetDevicesLoop, h0, Bool.false_eq_true, if_neg, not_false_eq_true]
      exact ih (i + 1) _ _
        (hasStateName_upsertDevice _ _ _ _ _ _ _ (hasStateName_assign smap cmap h))

lemma saveAssetDevicesLoop_present (menv : MirrorEnv)
    (smap : List (String × StateMapEntry)) (cmap : List (String × CountryMapEntry))
    (fails : Nat → Bool) (rows : List Asset) :
    ∀ (i : Nat) (draft : MirrorDB) (ops : List DeviceInsertOp),
      (∀ j, j < rows.length → fails (i + j) = false) →
      ∀ d ∈ rows,
        hasSerial (saveAssetDevicesLoop menv smap cmap fails i draft ops rows).1
          (assetSerial d) := by
  induction rows with
  | nil =>
    intro i d m _ x hx
    exact absurd hx (by simp)
  | cons c rest ih =>
    intro i d m hok x hx
    have h0 : fails i = false := by simpa using hok 0 (by simp)
    simp only [saveAssetDevicesLoop, h0, Bool.false_eq_true, if_neg, not_false_eq_true]
    have hshift : ∀ j, j < rest.length → fails (i + 1 + j) = false := fun j hj => by
      have harith : i + 1 + j = i + (j + 1) := by omega
      rw [harith]
      exact hok (j + 1) (by simpa using hj)
    rcases List.mem_cons.mp hx with rfl | hx2
    · exact saveAssetDevicesLoop_preserves_serial menv smap cmap fails rest
        (assetSerial x) (i + 1) _ _ (upsertDevice_hasSerial _ _ _ _ _ _ _ _)
    · exact ih (i + 1) _ _ hshift x hx2

lemma save_asset_devices_rollback (db : MirrorDB) (devs : List Asset)
    (smap : List (String × StateMapEntry)) (cmap : List (String × CountryMapEntry))
    (menv : MirrorEnv) (adF : Nat → Bool) (h : ∃ j, j < devs.length ∧ adF j = true) :
    (save_asset_devices_to_db db devs smap cmap menv adF).1 = db := by
  simp only [save_asset_devices_to_db]
  rw [saveAssetDevicesLoop_fail menv smap cmap adF devs 0 db [] (by simpa using h)]
  simp

lemma save_asset_devices_commit (db : MirrorDB) (devs : List Asset)
    (smap : List (String × StateMapEntry)) (cmap : List (String × CountryMapEntry))
    (menv : MirrorEnv) (adF : Nat → Bool) (h : ∀ j, j < devs.length → adF j = false) :
    ∀ d ∈ devs,
      hasSerial (save_asset_devices_to_db db devs smap cmap menv adF).1 (assetSerial d) := by
  intro d hd
  simp only [save_asset_devices_to_db,
    saveAssetDevicesLoop_ok menv smap cmap adF devs 0 db [] (by simpa using h), if_true]
  exact saveAssetDevicesLoop_present menv smap cmap adF devs 0 db [] (by simpa using h) d hd

lemma save_asset_devices_preserves_country (db : MirrorDB) (devs : List Asset)
    (smap : List (String × StateMapEntry)) (cmap : List (String × CountryMapEntry))
    (menv : MirrorEnv) (adF : Nat → Bool) (n : String) (h : hasCountryName db n) :
    hasCountryName (save_asset_devices_to_db db devs smap cmap menv adF).1 n := by
  unfold save_asset_devices_to_db
  dsimp only
  split
  · exact saveAssetDevicesLoop_preserves_country menv smap cmap adF devs n 0 db [] h
  · exact h

lemma save_asset_devices_preserves_state (db : MirrorDB) (devs : List Asset)
    (smap : List (String × StateMapEntry)) (cmap : List (String × CountryMapEntry))
    (menv : MirrorEnv) (adF : Nat → Bool) (n : String) (h : hasStateName db n) :
    hasStateName (save_asset_devices_to_db db devs smap cmap menv adF).1 n := by
  unfold save_asset_devices_to_db
  dsimp only
  split
  · exact saveAssetDevicesLoop_preserves_state menv smap cmap adF devs n 0 db [] h
  · exact h

lemma saveTbDevicesLoop_fail (menv : MirrorEnv) (smap : List (String × StateMapEntry))
    (cmap : List (String × CountryMapEntry)) (fails : Nat → Bool) (rows : List TbDevice) :
    ∀ (i : Nat) (draft : MirrorDB) (ops : List DeviceInsertOp),
      (∃ j, j < rows.length ∧ fails (i + j) = true) →
      (saveTbDevicesLoop menv smap cmap fails i draft ops rows).2.2 = false := by
  induction rows with
  | nil =>
    rintro i d m ⟨j, hj, _⟩
    exact absurd hj (by simp)
  | cons c rest ih =>
    rintro i d m ⟨j, hj, hf⟩
    by_cases h0 : fails i
    · simp [saveTbDevicesLoop, h0]
    · have hj0 : j ≠ 0 := by
        rintro rfl
        rw [Nat.add_zero] at hf
        exact h0 (by simp [hf])
      obtain ⟨k, rfl⟩ := Nat.exists_eq_succ_of_ne_zero hj0
      simp only [saveTbDevicesLoop, h0, Bool.false_eq_true, if_neg, not_false_eq_true]
      refine ih (i + 1) _ _ ⟨k, by simpa using hj, ?_⟩
      have harith : i + (k + 1) = i + 1 + k := by omega
      rwa [harith] at hf

lemma saveTbDevicesLoop_ok (menv : MirrorEnv) (smap : List (String × StateMapEntry))
    (cmap : List (String × CountryMapEntry)) (fails : Nat → Bool) (rows : List TbDevice) :
    ∀ (i : Nat) (draft : MirrorDB) (ops : List DeviceInsertOp),
      (∀ j, j < rows.length → fails (i + j) = false) →
      (saveTbDevicesLoop menv smap cmap fails i draft ops rows).2.2 = true := by
  induction rows with
  | nil =>
    intro i d m _
    rfl
  | cons c rest ih =>
    intro i d m hok
    have h0 : fails i = false := by simpa using hok 0 (by simp)
    simp only [saveTbDevicesLoop, h0, Bool.false_eq_true, if_neg, not_false_eq_true]
    refine ih (i + 1) _ _ fun j hj => ?_
    have harith : i + 1 + j = i + (j + 1) := by omega
    rw [harith]
    exact hok (j + 1) (by simpa using hj)

lemma saveTbDevicesLoop_preserves_serial (menv : MirrorEnv)
    (smap : List (String × StateMapEntry)) (cmap : List (String × CountryMapEntry))
    (fails : Nat → Bool) (rows : List TbDevice) (n : String) :
    ∀ (i : Nat) (draft : MirrorDB) (ops : List DeviceInsertOp),
      hasSerial draft n →
      hasSerial (saveTbDevicesLoop menv smap cmap fails i draft ops rows).1 n := by
  induction rows with
  | nil =>
    intro i d m h
    exact h
  | cons c rest ih =>
    intro i d m h
    by_cases h0 : fails i
    · simpa [saveTbDevicesLoop, h0] using h
    · simp only [saveTbDevicesLoop, h0, Bool.false_eq_true, if_neg, not_false_eq_true]
      exact ih (i + 1) _ _
        (hasSerial_upsertDevice _ _ _ _ _ _ _ (hasSerial_assign smap cmap h))

lemma saveTbDevicesLoop_preserves_country (menv : MirrorEnv)
    (smap : List (String × StateMapEntry)) (cmap : List (String × CountryMapEntry))
    (fails : Nat → Bool) (rows : List TbDevice) (n : String) :
    ∀ (i : Nat) (draft : MirrorDB) (ops : List DeviceInsertOp),
      hasCountryName draft n →
      hasCountryName (saveTbDevicesLoop menv smap cmap fails i draft ops rows).1 n := by
  induction rows with
  | nil =>
    intro i d m h
    exact h
  | cons c rest ih =>
    intro i d m h
    by_cases h0 : fails i
    · simpa [saveTbDevicesLoop, h0] using h
    · simp only [saveTbDevicesLoop, h0, Bool.false_eq_true, if_neg, not_false_eq_true]
      exact ih (i + 1) _ _
        (hasCountryName_upsertDevice _ _ _ _ _ _ _ (hasCountryName_assign smap cmap h))

lemma saveTbDevicesLoop_preserves_state (menv : MirrorEnv)
    (smap : List (String × StateMapEntry)) (cmap : List (String × CountryMapEntry))
    (fails : Nat → Bool) (rows : List TbDevice) (n : String) :
    ∀ (i : Nat) (draft : MirrorDB) (ops : List DeviceInsertOp),
      hasStateName draft n →
      hasStateName (saveTbDevicesLoop menv smap cmap fails i draft ops rows).1 n := by
  induction rows with
  | nil =>
    intro i d m h
    exact h
  | cons c rest ih =>
    intro i d m h
    by_cases h0 : fails i
    · simpa [saveTbDevicesLoop, h0] using h
    · simp only [saveTbDevicesLoop, h0, Bool.false_eq_true, if_neg, not_false_eq_true]
      exact ih (i + 1) _ _
        (hasStateName_upsertDevice _ _ _ _ _ _ _ (hasStateName_assign smap cmap h))

lemma saveTbDevicesLoop_present (menv : MirrorEnv)
    (smap : List (String × StateMapEntry)) (cmap : List (String × CountryMapEntry))
    (fails : Nat → Bool) (rows : List TbDevice) :
    ∀ (i : Nat) (draft : MirrorDB) (ops : List DeviceInsertOp),
      (∀ j, j < rows.length → fails (i + j) = false) →
      ∀ d ∈ rows,
        hasSerial (saveTbDevicesLoop menv smap cmap fails i draft ops rows).1
          (tbSerial d) := by
  induction rows with
  | nil =>
    intro i d m _ x hx
    exact absurd hx (by simp)
  | cons c rest ih =>
    intro i d m hok x hx
    have h0 : fails i = false := by simpa using hok 0 (by simp)
    simp only [saveTbDevicesLoop, h0, Bool.false_eq_true, if_neg, not_false_eq_true]
    have hshift : ∀ j, j < rest.length → fails (i + 1 + j) = false := fun j hj => by
      have harith : i + 1 + j = i + (j + 1) := by omega
      rw [harith]
      exact hok (j + 1) (by simpa using hj)
    rcases List.mem_cons.mp hx with rfl | hx2
    · exact saveTbDevicesLoop_preserves_serial menv smap cmap fails rest
        (tbSerial x) (i + 1) _ _ (upsertDevice_hasSerial _ _ _ _ _ _ _ _)
    · exact ih (i + 1) _ _ hshift x hx2

lemma save_tb_devices_rollback (db : MirrorDB) (devs : List TbDevice)
    (smap : List (String × StateMapEntry)) (cmap : List (String × CountryMapEntry))
    (menv : MirrorEnv) (tdF : Nat → Bool) (h : ∃ j, j < devs.length ∧ tdF j = true) :
    (save_thingsboard_devices_to_db db devs smap cmap menv tdF).1 = db := by
  simp only [save_thingsboard_devices_to_db]
  rw [saveTbDevicesLoop_fail menv smap cmap tdF devs 0 db [] (by simpa using h)]
  simp

lemma save_tb_devices_commit (db : MirrorDB) (devs : List TbDevice)
    (smap : List (String × StateMapEntry)) (cmap : List (String × CountryMapEntry))
    (menv : MirrorEnv) (tdF : Nat → Bool) (h : ∀ j, j < devs.length → tdF j = false) :
    ∀ d ∈ devs,
      hasSerial (save_thingsboard_devices_to_db db devs smap cmap menv tdF).1 (tbSerial d) := by
  intro d hd
  simp only [save_thingsboard_devices_to_db,
    saveTbDevicesLoop_ok menv smap cmap tdF devs 0 db [] (by simpa using h), if_true]
  exact saveTbDevicesLoop_present menv smap cmap tdF devs 0 db [] (by simpa using h) d hd

lemma save_tb_devices_preserves_country (db : MirrorDB) (devs : List TbDevice)
    (smap : List (String × StateMapEntry)) (cmap : List (String × CountryMapEntry))
    (menv : MirrorEnv) (tdF : Nat → Bool) (n : String) (h : hasCountryName db n) :
    hasCountryName (save_thingsboard_devices_to_db db devs smap cmap menv tdF).1 n := by
  unfold save_thingsboard_devices_to_db
  dsimp only
  split
  · exact saveTbDevicesLoop_preserves_country menv smap cmap tdF devs n 0 db [] h
  · exact h

lemma save_tb_devices_preserves_state (db : MirrorDB) (devs : List TbDevice)
    (smap : List (String × StateMapEntry)) (cmap : List (String × CountryMapEntry))
    (menv : MirrorEnv) (tdF : Nat → Bool) (n : String) (h : hasStateName db n) :
    hasStateName (save_thingsboard_devices_to_db db devs smap cmap menv tdF).1 n := by
  unfold save_thingsboard_devices_to_db
  dsimp only
  split
  · exact saveTbDevicesLoop_preserves_state menv smap cmap tdF devs n 0 db [] h
  · exact h

/-- Claim C8: mirror persistence is atomic per entity kind.  Each kind's
batch commits only when every one of its rows succeeded and rolls back to the
incoming database when any row raises; in the persist phase a kind's failure
neither undoes kinds already committed (their rows survive to the final
database) nor prevents later kinds from running (a later no-fail batch's rows
reach the final database whatever the earlier failure flags). -/
theorem c8_per_kind_transactions :
    (∀ (db : MirrorDB) (countries : List Asset) (cF : Nat → Bool),
      ((∃ j, j < countries.length ∧ cF j = true) →
        (save_countries_to_db db countries cF).1 = db) ∧
      ((∀ j, j < countries.length → cF j = false) →
        ∀ c ∈ countries, hasCountryName (save_countries_to_db db countries cF).1 c.name)) ∧
    (∀ (db : MirrorDB) (states : List Asset) (cmap : List (String × CountryMapEntry))
        (rels : List (String × String)) (sF : Nat → Bool),
      ((∃ j, j < states.length ∧ sF j = true) →
        (save_states_to_db db states cmap rels sF).1 = db) ∧
      ((∀ j, j < states.length → sF j = false) →
        ∀ s ∈ states, hasStateName (save_states_to_db db states cmap rels sF).1 s.name)) ∧
    (∀ (db : MirrorDB) (devs : List Asset) (smap : List (String × StateMapEntry))
        (cmap : List (String × CountryMapEntry)) (menv : MirrorEnv) (adF : Nat → Bool),
      ((∃ j, j < devs.length ∧ adF j = true) →
        (save_asset_devices_to_db db devs smap cmap menv adF).1 = db) ∧
      ((∀ j, j < devs.length → adF j = false) →
        ∀ d ∈ devs,
          hasSerial (save_asset_devices_to_db db devs smap cmap menv adF).1
            (assetSerial d))) ∧
    (∀ (db : MirrorDB) (tds : List TbDevice) (smap : List (String × StateMapEntry))
        (cmap : List (String × CountryMapEntry)) (menv : MirrorEnv) (tdF : Nat → Bool),
      ((∃ j, j < tds.length ∧ tdF j = true) →
        (save_thingsboard_devices_to_db db tds smap cmap menv tdF).1 = db) ∧
      ((∀ j, j < tds.length → tdF j = false) →
        ∀ d ∈ tds,
          hasSerial (save_thingsboard_devices_to_db db tds smap cmap menv tdF).1
            (tbSerial d))) ∧
    (∀ (db : MirrorDB) (countries states adevs : List Asset) (tds : List TbDevice)
        (rels : List (String × String)) (menv : MirrorEnv) (cF sF adF tdF : Nat → Bool),
      ((∀ j, j < countries.length → cF j = false) →
        ∀ c ∈ countries,
          hasCountryName (persistPhase db countries states adevs tds rels menv cF sF adF tdF)
            c.name) ∧
      ((∀ j, j < states.length → sF j = false) →
        ∀ s ∈ states,
          hasStateName (persistPhase db countries states adevs tds rels menv cF sF adF tdF)
            s.name) ∧
      ((∀ j, j < tds.length → tdF j = false) →
        ∀ d ∈ tds,
          hasSerial (persistPhase db countries states adevs tds rels menv cF sF adF tdF)
            (tbSerial d))) := by
  refine ⟨?_, ?_, ?_, ?_, ?_⟩
  · intro db countries cF
    exact ⟨save_countries_rollback db countries cF, save_countries_commit db countries cF⟩
  · intro db states cmap rels sF
    exact ⟨save_states_rollback db states cmap rels sF,
      save_states_commit db states cmap rels sF⟩
  · intro db devs smap cmap menv adF
    exact ⟨save_asset_devices_rollback db devs smap cmap menv adF,
      save_asset_devices_commit db devs smap cmap menv adF⟩
  · intro db tds smap cmap menv tdF
    exact ⟨save_tb_devices_rollback db tds smap cmap menv tdF,
      save_tb_devices_commit db tds smap cmap menv tdF⟩
  · intro db countries states adevs tds rels menv cF sF adF tdF
    refine ⟨?_, ?_, ?_⟩
    · intro hc c hcc
      simp only [persistPhase]
      apply save_tb_devices_preserves_country
      apply save_asset_devices_preserves_country
      apply save_states_preserves_country
      exact save_countries_commit db countries cF hc c hcc
    · intro hs sfx hss
      simp only [persistPhase]
      apply save_tb_devices_preserves_state
      apply save_asset_devices_preserves_state
      exact save_states_commit _ states _ rels sF hs sfx hss
    · intro ht d hd
      simp only [persistPhase]
      exact save_tb_devices_commit _ tds _ _ menv tdF ht d hd

def dbW : MirrorDB := ⟨[⟨3, "UK"⟩], [⟨5, "LONDON", 3⟩], [], 6⟩

def menvW : MirrorEnv := ⟨fun _ => (none, none), fun _ => (none, none, "1.0.0")⟩

theorem c10_device_rows_first_mapping_assignment_witness :
    (⟨"sensor-1", "ASSET_a3", 5, 3⟩ : DeviceInsertOp) ∈
      (save_asset_devices_to_db dbW [⟨"sensor-1", "Widget", "a3"⟩]
        [("lon-tb", ⟨5, "LONDON", 3⟩)] [("uk-tb", ⟨3, "UK"⟩)] menvW (fun _ => false)).2 ∧
    ((5 : Nat), (3 : Nat)) =
      (assignStateCountry dbW [("lon-tb", ⟨5, "LONDON", 3⟩)] [("uk-tb", ⟨3, "UK"⟩)]).2 := by
  have h := c10_device_rows_first_mapping_assignment dbW [⟨"sensor-1", "Widget", "a3"⟩] []
    [("lon-tb", ⟨5, "LONDON", 3⟩)] [("uk-tb", ⟨3, "UK"⟩)] menvW (fun _ => false) (fun _ => false)
  exact ⟨by decide, h.1 ⟨"sensor-1", "ASSET_a3", 5, 3⟩ (by decide)⟩

theorem c8_per_kind_transactions_witness :
    (save_countries_to_db dbW [⟨"FR", "Country", "fr-tb"⟩] (fun _ => true)).1 = dbW ∧
    hasCountryName
      (persistPhase dbW [⟨"FR", "Country", "fr-tb"⟩] [] [] [⟨"dev-9", "d9", some "SER-9"⟩]
        [] menvW (fun _ => false) (fun _ => true) (fun _ => true) (fun _ => false)) "FR" ∧
    hasSerial
      (persistPhase dbW [⟨"FR", "Country", "fr-tb"⟩] [] [] [⟨"dev-9", "d9", some "SER-9"⟩]
        [] menvW (fun _ => false) (fun _ => true) (fun _ => true) (fun _ => false))
      (tbSerial ⟨"dev-9", "d9", some "SER-9"⟩) := by
  have h := c8_per_kind_transactions
  have hp := h.2.2.2.2 dbW [⟨"FR", "Country", "fr-tb"⟩] [] [] [⟨"dev-9", "d9", some "SER-9"⟩]
    [] menvW (fun _ => false) (fun _ => true) (fun _ => true) (fun _ => false)
  refine ⟨(h.1 dbW [⟨"FR", "Country", "fr-tb"⟩] (fun _ => true)).1 ⟨0, by decide, rfl⟩, ?_, ?_⟩
  · exact hp.1 (fun j hj => rfl) ⟨"FR", "Country", "fr-tb"⟩ (by decide)
  · exact hp.2.2 (fun j hj => rfl) ⟨"dev-9", "d9", some "SER-9"⟩ (by decide)

end DP
